import Mathlib

/-!
Verification of the credential-driven HTTP call layer of the `mcp` repository
(api-scout / packages/api-testing).

The TypeScript sources are shallowly embedded: pure helpers become Lean
functions, the stateful call flows become explicit state passing over a
record holding the in-memory token cache and the ordered list of HTTP
requests issued so far, and the ambient network is an oracle mapping the
index of a request (how many requests were issued before it) to its outcome.
JavaScript `throw` is modelled by `Except String`; JS `undefined` results of
lookups are modelled by `Option`.

Platform primitives (WHATWG `URL`, `JSON` values, `fetch`, `Date.now`,
base64) are modelled by executable Lean definitions; simplifications of
those primitives (no percent-decoding or dot-segment normalization inside
`URL`, request-counter used as the clock) are noted at each definition.
Single-quote characters that some source error messages put around
interpolated values are left out of the modelled message strings.
-/

/-- A JSON-like JavaScript value (the possible results of `response.json()`
and the shape of request bodies). `undefined` is represented by `Option`
at use sites, not by a constructor. -/
inductive JSValue where
  | vnull : JSValue
  | vbool : Bool → JSValue
  | vnum : Int → JSValue
  | vstr : String → JSValue
  | varr : List JSValue → JSValue
  | vobj : List (String × JSValue) → JSValue
deriving Repr

namespace JSValue

/-- JavaScript truthiness of a value. -/
def truthy : JSValue → Bool
  | vnull => false
  | vbool b => b
  | vnum n => n != 0
  | vstr s => s ≠ ""
  | varr _ => true
  | vobj _ => true

end JSValue

/-- Own-property lookup on a JS object represented as an association list
(first binding wins, as JS object keys are unique). -/
def objGet (fields : List (String × JSValue)) (k : String) : Option JSValue :=
  (fields.find? (fun p => p.1 = k)).map (fun p => p.2)

/-- `Object.prototype.hasOwnProperty.call(o, k)` on the data model. -/
def hasOwnProp (fields : List (String × JSValue)) (k : String) : Bool :=
  (fields.find? (fun p => p.1 = k)).isSome

/-- Models JS `String.prototype.split` with a single-character separator,
accumulating the current segment; `"".split(sep)` gives `[""]` and
separators at the ends give empty segments, as in JS. -/
def splitCharAux (sep : Char) : List Char → List Char → List (List Char)
  | [], acc => [acc.reverse]
  | c :: cs, acc =>
    if c = sep then acc.reverse :: splitCharAux sep cs []
    else splitCharAux sep cs (c :: acc)

/-- `path.split('.')` from the source, over the model of strings. -/
def splitDot (s : String) : List String :=
  (splitCharAux '.' s.data []).map (fun l => String.mk l)

/-- The loop body of `getValueByPath` from
`packages/api-testing/src/utils/api-client.ts` (the exported variant):
walk the remaining path segments; stop with `undefined` on null, on a
non-object (arrays included), or on a missing own property. -/
def getValueByPathAux : List String → JSValue → Option JSValue
  | [], cur => some cur
  | part :: parts, cur =>
    match cur with
    | JSValue.vobj fields =>
      if hasOwnProp fields part then
        match objGet fields part with
        | some v => getValueByPathAux parts v
        | none => none
      else none
    | _ => none

/-- `getValueByPath` from `packages/api-testing/src/utils/api-client.ts`:
empty (falsy) paths give `undefined`; otherwise split on `.` and walk. -/
def getValueByPath (obj : JSValue) (path : String) : Option JSValue :=
  if path = "" then none
  else getValueByPathAux (splitDot path) obj

/-- Decimal digit value of a character, if it is a digit. -/
def digitVal (c : Char) : Option Nat :=
  if '0' ≤ c ∧ c ≤ '9' then some (c.toNat - 48) else none

/-- Parse a non-empty all-digit character list as a natural number. -/
def decDigits : List Char → Option Nat
  | [] => none
  | cs =>
    cs.foldl
      (fun acc c =>
        match acc, digitVal c with
        | some n, some d => some (n * 10 + d)
        | _, _ => none)
      (some 0)

/-- A character list is a canonical decimal numeral: `"0"`, or digits with
no leading zero. JS array index property names are exactly these. -/
def canonicalIndex (cs : List Char) : Bool :=
  match cs with
  | [] => false
  | ['0'] => true
  | c :: _ => c ≠ '0' ∧ (decDigits cs).isSome

/-- Models JS property access `current[part]` when `current` is an array:
`"length"` and canonical in-range numeric indices are the data properties
of a JS array (prototype methods are outside the JSON data model). -/
def jsArrGet (xs : List JSValue) (part : String) : Option JSValue :=
  if part = "length" then some (JSValue.vnum (Int.ofNat xs.length))
  else if canonicalIndex part.data then
    match decDigits part.data with
    | some i => xs.get? i
    | none => none
  else none

/-- The loop body of the local `getValueByPath` in
`packages/api-testing/src/tools/api-call.ts`: it only tests
`typeof current === 'object'` (which is true for arrays) and indexes
without an own-property check. A lookup that yields `undefined` makes the
next iteration (or the final return) produce `undefined`. -/
def getValueByPathToolsAux : List String → JSValue → Option JSValue
  | [], cur => some cur
  | part :: parts, cur =>
    match cur with
    | JSValue.vnull => none
    | JSValue.vobj fields =>
      match objGet fields part with
      | some v => getValueByPathToolsAux parts v
      | none => none
    | JSValue.varr xs =>
      match jsArrGet xs part with
      | some v => getValueByPathToolsAux parts v
      | none => none
    | _ => none

/-- The local `getValueByPath` of `packages/api-testing/src/tools/api-call.ts`
(no empty-path guard, no array exclusion, no own-property check). -/
def getValueByPathTools (obj : JSValue) (path : String) : Option JSValue :=
  getValueByPathToolsAux (splitDot path) obj

/-- One step of the dot-path walk as the specification words it: fail on
null, fail on anything that is not a plain (non-array) object, fail on a
missing own property, otherwise descend. Written against the spec text to
be compared with the source definition. -/
def specDotStep (cur : JSValue) (seg : String) : Option JSValue :=
  match cur with
  | JSValue.vobj fields =>
    if hasOwnProp fields seg then objGet fields seg else none
  | _ => none

/-- Dot-path extraction as described by the spec: split the path on `.` and
fold the per-segment step over the object, failing as soon as a step fails. -/
def specDotPathLookup (obj : JSValue) (path : String) : Option JSValue :=
  if path = "" then none
  else (splitDot path).foldlM specDotStep obj

theorem getValueByPathAux_eq_foldlM (parts : List String) (obj : JSValue) :
    getValueByPathAux parts obj = parts.foldlM specDotStep obj := by
  induction parts generalizing obj with
  | nil => rfl
  | cons p ps ih =>
    cases obj with
    | vobj fields =>
      simp only [getValueByPathAux, List.foldlM, specDotStep, hasOwnProp, objGet]
      cases hf : List.find? (fun q => q.1 = p) fields with
      | none => simp [hf]
      | some q => simp [hf, ih]
    | vnull => rfl
    | vbool b => rfl
    | vnum n => rfl
    | vstr s => rfl
    | varr xs => rfl

/-- C3 (amended): the exported `getValueByPath` of
`packages/api-testing/src/utils/api-client.ts` is exactly the dot-path
walk described by the claim (null, non-objects, arrays and missing own
properties all yield `undefined`), and the three quoted examples hold for
it. The local duplicate in `packages/api-testing/src/tools/api-call.ts`
is not covered: see the counterexample. -/
theorem getValueByPath_matches_spec :
    (∀ (obj : JSValue) (path : String),
        getValueByPath obj path = specDotPathLookup obj path) ∧
    getValueByPath (JSValue.vobj [("data", JSValue.vobj [("token", JSValue.vstr "abc")])])
        "data.token" = some (JSValue.vstr "abc") ∧
    getValueByPath (JSValue.vobj [("token", JSValue.vstr "abc")]) "data.token" = none ∧
    getValueByPath (JSValue.varr [JSValue.vnum 1, JSValue.vnum 2]) "0" = none := by
  refine ⟨?_, by rfl, by rfl, by rfl⟩
  intro obj path
  simp only [getValueByPath, specDotPathLookup]
  by_cases h : path = ""
  · simp [h]
  · simp [h, getValueByPathAux_eq_foldlM]

/-- C3 (counterexample): the claim also names the `getValueByPath` copy in
`packages/api-testing/src/tools/api-call.ts`, and for that copy
`getValueByPath([1,2], "0")` is `1`, not `undefined`: arrays are traversed. -/
theorem getValueByPathTools_array_not_undefined :
    getValueByPathTools (JSValue.varr [JSValue.vnum 1, JSValue.vnum 2]) "0"
      = some (JSValue.vnum 1) := by
  rfl

/-! ### A model of the WHATWG `URL` platform primitive

Only what `validateUrlAgainstWhitelist` and `buildUrl` observe is modelled:
`protocol` (scheme with trailing colon, lowercased), `host` (lowercased,
port kept verbatim), `pathname` (defaulting to `/`), `search` (with its
leading `?`). Percent-decoding, dot-segment removal, default-port
stripping and non-hierarchical schemes are not modelled; inputs without
`scheme://host` are treated as unparseable, as `new URL` throws on them. -/

/-- Lowercase a single ASCII character (model of JS case normalization). -/
def lowerChar (c : Char) : Char :=
  if 'A' ≤ c ∧ c ≤ 'Z' then Char.ofNat (c.toNat + 32) else c

/-- Characters allowed in a URL scheme. -/
def schemeCharOk (c : Char) : Bool :=
  c.isAlphanum || c == '+' || c == '-' || c == '.'

/-- A valid scheme: nonempty, starts with a letter, all characters allowed. -/
def schemeOk : List Char → Bool
  | [] => false
  | c :: cs => c.isAlpha && (c :: cs).all schemeCharOk

/-- Split a character list at the first occurrence of `sep` (removed). -/
def splitFirst (sep : Char) : List Char → Option (List Char × List Char)
  | [] => none
  | c :: cs =>
    if c = sep then some ([], cs)
    else
      match splitFirst sep cs with
      | some (a, b) => some (c :: a, b)
      | none => none

/-- Take the longest segment not containing a character satisfying `p`,
returning it together with the rest. -/
def spanUntil (p : Char → Bool) (l : List Char) : List Char × List Char :=
  (l.takeWhile (fun c => ! p c), l.dropWhile (fun c => ! p c))

/-- The parts of a parsed URL that the core observes. -/
structure URLParts where
  protocol : String
  host : String
  pathname : String
  search : String
deriving Repr, DecidableEq

/-- Model of `new URL(s)` for hierarchical URLs (see the section comment). -/
def parseURL (s : String) : Option URLParts :=
  match splitFirst ':' s.data with
  | none => none
  | some (schemeRaw, rest) =>
    let scheme := schemeRaw.map lowerChar
    if schemeOk scheme then
      match rest with
      | '/' :: '/' :: rest2 =>
        let hostRest := spanUntil (fun c => c = '/' ∨ c = '?' ∨ c = '#') rest2
        if hostRest.1.isEmpty then none
        else
          let pathRest := spanUntil (fun c => c = '?' ∨ c = '#') hostRest.2
          some
            { protocol := String.mk (scheme ++ [':'])
              host := String.mk (hostRest.1.map lowerChar)
              pathname := String.mk (if pathRest.1.isEmpty then ['/'] else pathRest.1)
              search := String.mk (spanUntil (fun c => c = '#') pathRest.2).1 }
      | _ => none
    else none

/-- Result shape of `validateUrlAgainstWhitelist`. -/
structure ValidationResult where
  valid : Bool
  matchedBaseUrl : Option String
deriving Repr, DecidableEq

/-- `${parsed.protocol}//${parsed.host}` from the source. -/
def urlOrigin (p : URLParts) : String := p.protocol ++ "//" ++ p.host

/-- The `for` loop of `validateUrlAgainstWhitelist`: entries that fail to
parse are skipped (`catch { continue }`); the first entry with equal
origin and matching path prefix wins. -/
def validateLoop (pu : URLParts) : List String → ValidationResult
  | [] => { valid := false, matchedBaseUrl := none }
  | baseUrl :: rest =>
    match parseURL baseUrl with
    | none => validateLoop pu rest
    | some pb =>
      if urlOrigin pu = urlOrigin pb then
        if pb.pathname.data.isPrefixOf pu.pathname.data then
          { valid := true, matchedBaseUrl := some baseUrl }
        else validateLoop pu rest
      else validateLoop pu rest

/-- `validateUrlAgainstWhitelist` from
`packages/api-testing/src/utils/api-client.ts` (the identical copy in the
older api-scout client is also covered): an unparseable target URL is
`{valid:false}` via the outer `catch`. -/
def validateUrlAgainstWhitelist (url : String)
    (whitelistedBaseUrls : List String) : ValidationResult :=
  match parseURL url with
  | none => { valid := false, matchedBaseUrl := none }
  | some pu => validateLoop pu whitelistedBaseUrls


theorem validateLoop_nil (pu : URLParts) :
    validateLoop pu [] = { valid := false, matchedBaseUrl := none } := rfl

theorem validateLoop_cons_none (pu : URLParts) {w : String} (rest : List String)
    (hw : parseURL w = none) :
    validateLoop pu (w :: rest) = validateLoop pu rest := by
  conv_lhs => unfold validateLoop
  rw [hw]

theorem validateLoop_cons_some (pu : URLParts) {w : String} (rest : List String)
    {pw : URLParts} (hw : parseURL w = some pw) :
    validateLoop pu (w :: rest) =
      if urlOrigin pu = urlOrigin pw then
        if pw.pathname.data.isPrefixOf pu.pathname.data then
          { valid := true, matchedBaseUrl := some w }
        else validateLoop pu rest
      else validateLoop pu rest := by
  conv_lhs => unfold validateLoop
  rw [hw]

theorem schemeOk_no_slash {l : List Char} (h : schemeOk l = true) : '/' ∉ l := by
  intro hmem
  cases l with
  | nil => simp [schemeOk] at h
  | cons c cs =>
    simp only [schemeOk, Bool.and_eq_true] at h
    have hall := List.all_eq_true.mp h.2 _ hmem
    exact absurd hall (by decide)

theorem parseURL_protocol_shape {s : String} {p : URLParts}
    (h : parseURL s = some p) :
    ∃ scheme, schemeOk scheme = true ∧ p.protocol.data = scheme ++ [':'] := by
  unfold parseURL at h
  split at h
  · exact absurd h (by simp)
  next schemeRaw rest heq =>
    dsimp only at h
    split at h
    next hs =>
      split at h
      next rest2 =>
        split at h
        · exact absurd h (by simp)
        · refine ⟨schemeRaw.map lowerChar, hs, ?_⟩
          obtain rfl := Option.some.inj h
          rfl
      · exact absurd h (by simp)
    · exact absurd h (by simp)

theorem parseURL_protocol_no_slash {s : String} {p : URLParts}
    (h : parseURL s = some p) : '/' ∉ p.protocol.data := by
  obtain ⟨scheme, hs, hdata⟩ := parseURL_protocol_shape h
  rw [hdata]
  intro hmem
  rcases List.mem_append.mp hmem with hmem | hmem
  · exact schemeOk_no_slash hs hmem
  · simp at hmem

theorem append_two_slashes_inj {a₁ a₂ b₁ b₂ : List Char}
    (h₁ : '/' ∉ a₁) (h₂ : '/' ∉ a₂)
    (h : a₁ ++ '/' :: '/' :: b₁ = a₂ ++ '/' :: '/' :: b₂) :
    a₁ = a₂ ∧ b₁ = b₂ := by
  induction a₁ generalizing a₂ with
  | nil =>
    cases a₂ with
    | nil => simpa using h
    | cons d u =>
      exfalso
      simp only [List.nil_append, List.cons_append, List.cons.injEq] at h
      exact h₂ (h.1 ▸ List.mem_cons_self d u)
  | cons c t ih =>
    cases a₂ with
    | nil =>
      exfalso
      simp only [List.nil_append, List.cons_append, List.cons.injEq] at h
      exact h₁ (h.1.symm ▸ List.mem_cons_self c t)
    | cons d u =>
      simp only [List.cons_append, List.cons.injEq] at h
      obtain ⟨rfl, h'⟩ := h
      have := ih (fun hm => h₁ (List.mem_cons_of_mem _ hm))
        (fun hm => h₂ (List.mem_cons_of_mem _ hm)) h'
      exact ⟨by rw [this.1], this.2⟩

theorem urlOrigin_eq_iff {pu pb : URLParts}
    (hu : '/' ∉ pu.protocol.data) (hb : '/' ∉ pb.protocol.data) :
    urlOrigin pu = urlOrigin pb ↔
      (pu.protocol = pb.protocol ∧ pu.host = pb.host) := by
  constructor
  · intro h
    unfold urlOrigin at h
    have hdata : pu.protocol.data ++ '/' :: '/' :: pu.host.data
        = pb.protocol.data ++ '/' :: '/' :: pb.host.data := by
      have := congrArg String.data h
      simpa [String.data_append] using this
    obtain ⟨hp, hh⟩ := append_two_slashes_inj hu hb hdata
    exact ⟨String.ext hp, String.ext hh⟩
  · intro ⟨hp, hh⟩
    unfold urlOrigin
    rw [hp, hh]

theorem validateLoop_valid_of_mem (pu : URLParts) {ws : List String}
    {w : String} {pw : URLParts} (hwmem : w ∈ ws)
    (hw : parseURL w = some pw)
    (horigin : urlOrigin pu = urlOrigin pw)
    (hpre : pw.pathname.data.isPrefixOf pu.pathname.data = true) :
    (validateLoop pu ws).valid = true := by
  induction ws with
  | nil => simp at hwmem
  | cons w₀ rest ih =>
    rcases List.mem_cons.mp hwmem with rfl | hmem
    · rw [validateLoop_cons_some pu rest hw, if_pos horigin, if_pos hpre]
    · cases hw₀ : parseURL w₀ with
      | none => rw [validateLoop_cons_none pu rest hw₀]; exact ih hmem
      | some pb =>
        rw [validateLoop_cons_some pu rest hw₀]
        by_cases horigin₀ : urlOrigin pu = urlOrigin pb
        · rw [if_pos horigin₀]
          by_cases hpre₀ : pb.pathname.data.isPrefixOf pu.pathname.data = true
          · rw [if_pos hpre₀]
          · rw [if_neg hpre₀]; exact ih hmem
        · rw [if_neg horigin₀]; exact ih hmem

theorem validateLoop_valid_elim (pu : URLParts) {ws : List String}
    (hvalid : (validateLoop pu ws).valid = true) :
    ∃ w ∈ ws, ∃ pw, parseURL w = some pw ∧
      urlOrigin pu = urlOrigin pw ∧
      pw.pathname.data.isPrefixOf pu.pathname.data = true := by
  induction ws with
  | nil => simp [validateLoop_nil] at hvalid
  | cons w₀ rest ih =>
    cases hw₀ : parseURL w₀ with
    | none =>
      rw [validateLoop_cons_none pu rest hw₀] at hvalid
      obtain ⟨w, hmem, hrest⟩ := ih hvalid
      exact ⟨w, List.mem_cons_of_mem _ hmem, hrest⟩
    | some pb =>
      rw [validateLoop_cons_some pu rest hw₀] at hvalid
      by_cases horigin : urlOrigin pu = urlOrigin pb
      · rw [if_pos horigin] at hvalid
        by_cases hpre : pb.pathname.data.isPrefixOf pu.pathname.data = true
        · exact ⟨w₀, List.mem_cons_self _ _, pb, hw₀, horigin, hpre⟩
        · rw [if_neg hpre] at hvalid
          obtain ⟨w, hmem, hrest⟩ := ih hvalid
          exact ⟨w, List.mem_cons_of_mem _ hmem, hrest⟩
      · rw [if_neg horigin] at hvalid
        obtain ⟨w, hmem, hrest⟩ := ih hvalid
        exact ⟨w, List.mem_cons_of_mem _ hmem, hrest⟩

/-- C2: `validateUrlAgainstWhitelist(U, list)` is valid exactly when some
whitelist entry parses to the same scheme and host as `U` with a path that
is a string prefix of `U`'s path; unparseable entries are skipped without
aborting the scan, and an unparseable `U` or an empty match set give
`{valid:false}`. -/
theorem validateUrlAgainstWhitelist_iff (u : String) (ws : List String) :
    (validateUrlAgainstWhitelist u ws).valid = true ↔
      ∃ pu, parseURL u = some pu ∧
        ∃ w ∈ ws, ∃ pw, parseURL w = some pw ∧
          pw.protocol = pu.protocol ∧ pw.host = pu.host ∧
          pw.pathname.data.isPrefixOf pu.pathname.data = true := by
  unfold validateUrlAgainstWhitelist
  cases hu : parseURL u with
  | none => simp
  | some pu =>
    constructor
    · intro hvalid
      obtain ⟨w, hmem, pw, hw, horigin, hpre⟩ := validateLoop_valid_elim pu hvalid
      obtain ⟨hp, hh⟩ := (urlOrigin_eq_iff (parseURL_protocol_no_slash hu)
        (parseURL_protocol_no_slash hw)).mp horigin
      exact ⟨pu, rfl, w, hmem, pw, hw, hp.symm, hh.symm, hpre⟩
    · rintro ⟨pu', hpu', w, hmem, pw, hw, hp, hh, hpre⟩
      obtain rfl : pu = pu' := Option.some.inj hpu'
      have horigin : urlOrigin pu = urlOrigin pw :=
        (urlOrigin_eq_iff (parseURL_protocol_no_slash hu)
          (parseURL_protocol_no_slash hw)).mpr ⟨hp.symm, hh.symm⟩
      exact validateLoop_valid_of_mem pu hmem hw horigin hpre

/-! ### String and encoding helpers (models of JS platform primitives) -/

/-- Uppercase a single ASCII character (model of `toUpperCase`). -/
def upperChar (c : Char) : Char :=
  if 'a' ≤ c ∧ c ≤ 'z' then Char.ofNat (c.toNat - 32) else c

/-- `method.toUpperCase()` on the model of strings. -/
def upperStr (s : String) : String := String.mk (s.data.map upperChar)

/-- Lowercase a whole string (used for case-insensitive header lookup). -/
def lowerStr (s : String) : String := String.mk (s.data.map lowerChar)

/-- Decimal rendering of a naturals, with structural fuel so that concrete
evaluations reduce in the kernel (model of JS number-to-string). -/
def natToStrAux : Nat → Nat → List Char
  | 0, _ => []
  | fuel + 1, n =>
    if n < 10 then [Char.ofNat (48 + n)]
    else natToStrAux fuel (n / 10) ++ [Char.ofNat (48 + n % 10)]

/-- Decimal rendering of a natural number. -/
def natToStr (n : Nat) : String := String.mk (natToStrAux (n + 1) n)

/-- Decimal rendering of an integer. -/
def intToStr (n : Int) : String :=
  if n < 0 then "-" ++ natToStr n.natAbs else natToStr n.natAbs

/-- Does `s` contain `sub` as a substring (model of `String.includes`)? -/
def strContainsAux (sub : List Char) : List Char → Bool
  | [] => sub.isEmpty
  | c :: cs => sub.isPrefixOf (c :: cs) || strContainsAux sub cs

/-- Does `s` contain `sub` as a substring? -/
def strContains (s sub : String) : Bool := strContainsAux sub.data s.data

/-- First `n` characters of a string (model of `substring(0, n)`). -/
def takeStr (n : Nat) (s : String) : String := String.mk (s.data.take n)

/-- Replace the first occurrence of `pat` in a character list (model of JS
`String.prototype.replace` with a string pattern). -/
def replaceFirstAux (pat repl : List Char) : List Char → List Char
  | [] => []
  | c :: cs =>
    if pat.isPrefixOf (c :: cs) then repl ++ (c :: cs).drop pat.length
    else c :: replaceFirstAux pat repl cs

/-- Replace the first occurrence of `pat` in `s` by `repl`. -/
def replaceFirst (s pat repl : String) : String :=
  String.mk (replaceFirstAux pat.data repl.data s.data)

/-- UTF-8 bytes of a character (model of the platform encoder). -/
def utf8Bytes (c : Char) : List UInt8 :=
  let n := c.toNat
  if n < 128 then [UInt8.ofNat n]
  else if n < 2048 then
    [UInt8.ofNat (192 + n / 64), UInt8.ofNat (128 + n % 64)]
  else if n < 65536 then
    [UInt8.ofNat (224 + n / 4096), UInt8.ofNat (128 + n / 64 % 64),
     UInt8.ofNat (128 + n % 64)]
  else
    [UInt8.ofNat (240 + n / 262144), UInt8.ofNat (128 + n / 4096 % 64),
     UInt8.ofNat (128 + n / 64 % 64), UInt8.ofNat (128 + n % 64)]

/-- Uppercase hexadecimal digit. -/
def hexDigit (n : Nat) : Char :=
  if n < 10 then Char.ofNat (48 + n) else Char.ofNat (55 + n)

/-- `%XX` percent-encoding of one byte. -/
def percentByte (b : UInt8) : String :=
  String.mk ['%', hexDigit (b.toNat / 16), hexDigit (b.toNat % 16)]

/-- Characters `encodeURIComponent` leaves unencoded. -/
def uriUnreserved (c : Char) : Bool :=
  c.isAlphanum || c == '-' || c == '_' || c == '.' || c == '!'
    || c == '~' || c == '*' || c == Char.ofNat 39 || c == '(' || c == ')'

/-- Model of `encodeURIComponent`. -/
def encodeURIComponent (s : String) : String :=
  s.data.foldl
    (fun acc c =>
      if uriUnreserved c then acc ++ String.mk [c]
      else acc ++ String.join ((utf8Bytes c).map percentByte))
    ""

/-- Model of `URLSearchParams` value encoding (space becomes `+`). -/
def formEncode (s : String) : String :=
  s.data.foldl
    (fun acc c =>
      if c = ' ' then acc ++ "+"
      else if c.isAlphanum || c == '*' || c == '-' || c == '.' || c == '_' then
        acc ++ String.mk [c]
      else acc ++ String.join ((utf8Bytes c).map percentByte))
    ""

/-- Standard base64 alphabet. -/
def base64Chars : List Char :=
  "ABCDEFGHIJKLMNOPQRSTUVWXYZabcdefghijklmnopqrstuvwxyz0123456789+/".data

/-- Base64 of a byte list, three bytes at a time (model of
`Buffer.from(...).toString('base64')`). -/
def base64Group : List UInt8 → List Char
  | [] => []
  | [a] =>
    let x := a.toNat
    [base64Chars.getD (x / 4) 'A', base64Chars.getD (x % 4 * 16) 'A', '=', '=']
  | [a, b] =>
    let x := a.toNat
    let y := b.toNat
    [base64Chars.getD (x / 4) 'A', base64Chars.getD (x % 4 * 16 + y / 16) 'A',
     base64Chars.getD (y % 16 * 4) 'A', '=']
  | a :: b :: c :: rest =>
    let x := a.toNat
    let y := b.toNat
    let z := c.toNat
    base64Chars.getD (x / 4) 'A' :: base64Chars.getD (x % 4 * 16 + y / 16) 'A'
      :: base64Chars.getD (y % 16 * 4 + z / 64) 'A' :: base64Chars.getD (z % 64) 'A'
      :: base64Group rest

/-- Base64 of the UTF-8 bytes of a string. -/
def base64Encode (s : String) : String :=
  String.mk (base64Group (s.data.foldr (fun c acc => utf8Bytes c ++ acc) []))

mutual

/-- `JSON.stringify` on the JSON data model (no escaping inside strings;
the result is only observed inside error-message previews). -/
def jsonStringify : JSValue → String
  | JSValue.vnull => "null"
  | JSValue.vbool b => cond b "true" "false"
  | JSValue.vnum n => intToStr n
  | JSValue.vstr s => "\"" ++ s ++ "\""
  | JSValue.varr xs => "[" ++ jsonStringifyListV xs ++ "]"
  | JSValue.vobj fs => "\x7b" ++ jsonStringifyFields fs ++ "\x7d"

/-- Comma-separated rendering of a JSON array body. -/
def jsonStringifyListV : List JSValue → String
  | [] => ""
  | [v] => jsonStringify v
  | v :: rest => jsonStringify v ++ "," ++ jsonStringifyListV rest

/-- Comma-separated rendering of a JSON object body. -/
def jsonStringifyFields : List (String × JSValue) → String
  | [] => ""
  | [(k, v)] => "\"" ++ k ++ "\":" ++ jsonStringify v
  | (k, v) :: rest =>
    "\"" ++ k ++ "\":" ++ jsonStringify v ++ "," ++ jsonStringifyFields rest

end

/-! ### JS option-coalescing helpers -/

/-- JS `x || d` for an optional string (`undefined` and `""` are falsy). -/
def orDefault (o : Option String) (d : String) : String :=
  match o with
  | some s => if s = "" then d else s
  | none => d

/-- JS `x ?? d` for an optional string (only `undefined`/`null` fall back). -/
def nullishDefault (o : Option String) (d : String) : String := o.getD d

/-- JS truthiness of an optional string. -/
def optTruthy (o : Option String) : Bool :=
  match o with
  | some s => s ≠ ""
  | none => false

/-! ### Headers, credentials, token cache, HTTP model -/

/-- A JS header object: insertion-ordered keys, set-in-place updates. -/
abbrev Headers := List (String × String)

/-- `headers[k] = v`: overwrite in place, or append a new key. -/
def hset (hs : Headers) (k v : String) : Headers :=
  if hs.any (fun p => p.1 == k) then
    hs.map (fun p => if p.1 == k then (k, v) else p)
  else hs ++ [(k, v)]

/-- Object spread `{...hs, ...upd}` / `Object.assign(hs, upd)`. -/
def hmergeList (hs upd : Headers) : Headers :=
  upd.foldl (fun acc p => hset acc p.1 p.2) hs

/-- Case-insensitive header lookup (model of `Headers.prototype.get`). -/
def getHeader (hs : Headers) (k : String) : Option String :=
  (hs.find? (fun p => lowerStr p.1 == lowerStr k)).map (fun p => p.2)

/-- Credential types across both package variants (`autoToken` exists only
in the packages/api-testing variant; api-scout folds it into `bearer`). -/
inductive CredType where
  | apiKey | bearer | basic | oauth2 | custom | customHeaders | autoToken
deriving Repr, DecidableEq

/-- `CredentialConfig` from `types/index.ts`: a union of optional fields
interpreted according to the credential type. -/
structure CredentialConfig where
  apiKey : Option String := none
  apiKeyHeader : Option String := none
  token : Option String := none
  username : Option String := none
  password : Option String := none
  clientId : Option String := none
  clientSecret : Option String := none
  accessToken : Option String := none
  refreshToken : Option String := none
  tokenUrl : Option String := none
  headers : Option Headers := none
  customHeaders : Option (List (String × String)) := none
  loginUrl : Option String := none
  loginMethod : Option String := none
  loginBody : Option JSValue := none
  loginHeaders : Option Headers := none
  tokenPath : Option String := none
  tokenHeader : Option String := none
  tokenPrefix : Option String := none
  invalidStatusCodes : Option (List Nat) := none
  validityCheckUrl : Option String := none
  validityCheckMethod : Option String := none
  refreshUrl : Option String := none
  refreshMethod : Option String := none
  refreshTokenPath : Option String := none
deriving Repr

/-- `Credential` from `types/index.ts`. -/
structure Credential where
  id : String
  name : String
  type : CredType
  apiDocId : Option String := none
  config : CredentialConfig
  createdAt : String := ""
  updatedAt : String := ""
deriving Repr

/-- `config.invalidStatusCodes || [401, 403]` (a present empty array is
truthy in JS, so only `undefined` falls back). -/
def invalidCodes (config : CredentialConfig) : List Nat :=
  config.invalidStatusCodes.getD [401, 403]

/-- `TokenCache` from `types/index.ts`: the in-memory token cache entry.
`obtainedAt` is `Date.now()`, modelled by the request counter. -/
structure TokenCache where
  credentialId : String
  token : String
  refreshToken : Option String := none
  obtainedAt : Nat
deriving Repr

/-- The role in which a request is issued (its call site in the source). -/
inductive ReqKind where
  | target | login | validity | refresh
deriving Repr, DecidableEq, BEq

/-- One outbound HTTP request, as handed to `fetch` (bodies are kept as
JSON values rather than serialized text). -/
structure HttpRequest where
  kind : ReqKind
  url : String
  method : String
  headers : Headers
  body : Option JSValue := none
deriving Repr

/-- What the environment answers to one `fetch`: status line, headers and
the possible outcomes of reading the body (`json()` / `text()` may fail). -/
structure Resp where
  status : Nat
  statusText : String := ""
  headers : Headers := []
  json : Except String JSValue := Except.ok JSValue.vnull
  text : Except String String := Except.ok ""
  bufSize : Nat := 0
deriving Repr

/-- `response.ok`: status in the 200-299 range. -/
def respOk (r : Resp) : Bool := 200 ≤ r.status && r.status ≤ 299

/-- `response.text().catch(() => '')`. -/
def textOrEmpty (r : Resp) : String :=
  match r.text with
  | Except.ok t => t
  | Except.error _ => ""

/-- Outcome of one `fetch`: a response, or a network-level failure that
makes `await fetch` throw. -/
inductive FetchResult where
  | success (r : Resp)
  | netErr (msg : String)
deriving Repr

/-- The ambient network: the answer to the `n`-th request issued by the
process (deterministic oracle indexed by the request counter). -/
abbrev Env := Nat → FetchResult

/-- Process-wide mutable state: the module-level token cache of
`api-client.ts` plus the trace of issued requests (which also serves as
the `Date.now()` clock). -/
structure St where
  cache : List (String × TokenCache) := []
  reqs : List HttpRequest := []
deriving Repr

/-- `tokenCache.get`. -/
def cacheGet (c : List (String × TokenCache)) (id : String) : Option TokenCache :=
  (c.find? (fun p => p.1 == id)).map (fun p => p.2)

/-- `tokenCache.set` (overwrite or insert). -/
def cacheSet (c : List (String × TokenCache)) (id : String) (e : TokenCache) :
    List (String × TokenCache) :=
  if c.any (fun p => p.1 == id) then
    c.map (fun p => if p.1 == id then (id, e) else p)
  else c ++ [(id, e)]

/-- `tokenCache.delete`. -/
def cacheDelete (c : List (String × TokenCache)) (id : String) :
    List (String × TokenCache) :=
  c.filter (fun p => p.1 != id)

/-- Issue one HTTP request: record it in the trace and consult the oracle
at the current request counter. -/
def issue (env : Env) (req : HttpRequest) (st : St) : FetchResult × St :=
  (env st.reqs.length, { st with reqs := st.reqs ++ [req] })

/-- Requests of a given kind in a trace. -/
def countKind (k : ReqKind) (l : List HttpRequest) : Nat :=
  (l.filter (fun r => decide (r.kind = k))).length

/-! ### Response parsing and URL building (shared by both call layers) -/

/-- Body parsing of `executeRequest` / `executeRawRequest`: branch on the
content type; a failing `json()`/`text()` falls back to
`response.text().catch(() => null)`. -/
def parseRespBody (r : Resp) : JSValue :=
  let ct := (getHeader r.headers "content-type").getD ""
  if strContains ct "application/json" then
    match r.json with
    | Except.ok v => v
    | Except.error _ =>
      match r.text with
      | Except.ok t => JSValue.vstr t
      | Except.error _ => JSValue.vnull
  else if strContains ct "text/" then
    match r.text with
    | Except.ok t => JSValue.vstr t
    | Except.error _ => JSValue.vnull
  else
    JSValue.vobj [("_binary", JSValue.vbool true),
      ("size", JSValue.vnum (Int.ofNat r.bufSize)), ("contentType", JSValue.vstr ct)]

/-- Drop the last path segment, keeping the trailing slash (relative URL
resolution step). -/
def dropLastSegment (l : List Char) : List Char :=
  (l.reverse.dropWhile (fun c => c != '/')).reverse

/-- Model of `new URL(path, base)`: an absolute `path` wins; otherwise a
path-absolute or relative `path` is resolved against the parsed base
(dot segments and the base query are not modelled). -/
def resolveURL (path base : String) : Option URLParts :=
  match parseURL path with
  | some p => some p
  | none =>
    match parseURL base with
    | none => none
    | some pb =>
      match path.data with
      | [] => some pb
      | '/' :: rest =>
        let pr := spanUntil (fun c => c = '?' ∨ c = '#') ('/' :: rest)
        some { protocol := pb.protocol, host := pb.host,
               pathname := String.mk pr.1,
               search := String.mk (spanUntil (fun c => c = '#') pr.2).1 }
      | c :: rest =>
        let pr := spanUntil (fun c => c = '?' ∨ c = '#') (c :: rest)
        some { protocol := pb.protocol, host := pb.host,
               pathname := String.mk (dropLastSegment pb.pathname.data ++ pr.1),
               search := String.mk (spanUntil (fun c => c = '#') pr.2).1 }

/-- `url.toString()`. -/
def urlToString (p : URLParts) : String :=
  p.protocol ++ "//" ++ p.host ++ p.pathname ++ p.search

/-- `url.searchParams.append(k, v)`. -/
def appendQuery (u : URLParts) (k v : String) : URLParts :=
  let pair := formEncode k ++ "=" ++ formEncode v
  { u with search := if u.search = "" then "?" ++ pair else u.search ++ "&" ++ pair }

/-- `buildUrl` from `packages/api-testing/src/utils/api-client.ts`:
substitute `{key}` path parameters (first occurrence, value
percent-encoded), resolve against the base URL (a `new URL` failure is a
thrown `TypeError`, modelled as `Except.error`), then append query
parameters. -/
def buildUrl (baseUrl path : String) (pathParams queryParams : Option (List (String × String))) :
    Except String String :=
  let resolvedPath := (pathParams.getD []).foldl
    (fun acc kv => replaceFirst acc ("\x7b" ++ kv.1 ++ "\x7d") (encodeURIComponent kv.2))
    path
  match resolveURL resolvedPath baseUrl with
  | none => Except.error ("Invalid URL: " ++ resolvedPath)
  | some u =>
    Except.ok (urlToString ((queryParams.getD []).foldl (fun acc kv => appendQuery acc kv.1 kv.2) u))

/-- Response timing block. -/
structure Timing where
  start : Nat
  stop : Nat
  duration : Nat
deriving Repr

/-- `ApiCallResponse` from `types/index.ts`. -/
structure ApiCallResponse where
  status : Nat
  statusText : String
  headers : Headers
  body : JSValue
  timing : Timing
deriving Repr

/-- `ApiDoc`, reduced to the fields the call layer reads. -/
structure ApiDoc where
  id : String
  baseUrl : String
deriving Repr

/-- `ApiCallRequest` from `types/index.ts`. -/
structure ApiCallRequest where
  apiDocId : String := ""
  endpointPath : String
  method : String
  pathParams : Option (List (String × String)) := none
  queryParams : Option (List (String × String)) := none
  headers : Option Headers := none
  body : Option JSValue := none
  credentialId : Option String := none
deriving Repr

/-- The request record built by `performLogin` / `performAutoTokenLogin`. -/
def loginRequest (credential : Credential) (loginUrl : String) : HttpRequest :=
  { kind := ReqKind.login, url := loginUrl,
    method := orDefault credential.config.loginMethod "POST",
    headers := hmergeList
      [("Content-Type", "application/json"), ("Accept", "application/json")]
      (credential.config.loginHeaders.getD []),
    body := if (credential.config.loginBody.map JSValue.truthy).getD false
        ∧ credential.config.loginMethod ≠ some "GET" then
      credential.config.loginBody else none }

/-- The request record built by `checkTokenValidity`. -/
def probeRequest (credential : Credential) (url token : String) : HttpRequest :=
  { kind := ReqKind.validity, url := url,
    method := orDefault credential.config.validityCheckMethod "GET",
    headers := hset [("Accept", "application/json")]
      (orDefault credential.config.tokenHeader "Authorization")
      (nullishDefault credential.config.tokenPrefix "Bearer " ++ token),
    body := none }

/-- The request record built by the request executors (the body is
dropped when falsy or when the method is GET/HEAD). -/
def targetRequest (url method : String) (headers : Headers) (body : Option JSValue) :
    HttpRequest :=
  { kind := ReqKind.target, url := url, method := method, headers := headers,
    body := match body with
      | some b => if b.truthy ∧ ¬ (method = "GET" ∨ method = "HEAD") then some b else none
      | none => none }

namespace ApiClient

/-- `getCachedToken` from `utils/api-client.ts`. -/
def getCachedToken (st : St) (credentialId : String) : Option String :=
  (cacheGet st.cache credentialId).map (fun e => e.token)

/-- `clearCachedToken` from `utils/api-client.ts`. -/
def clearCachedToken (st : St) (credentialId : String) : St :=
  { st with cache := cacheDelete st.cache credentialId }

/-- The error raised when no string token is found at the token path. -/
def tokenExtractError (tokenPath : String) (responseBody : JSValue) : String :=
  "Failed to extract token from login response using path " ++ tokenPath
    ++ ". Response: " ++ takeStr 200 (jsonStringify responseBody)

/-- `performLogin` from `utils/api-client.ts`: POST (by default) to the
login URL, require a 2xx, parse JSON, extract the token at `tokenPath`
(string required, empty string falsy), and cache it with the current
clock. Network failures and body-parse failures propagate as thrown
errors. -/
def performLogin (env : Env) (credential : Credential) (st : St) :
    Except String String × St :=
  let config := credential.config
  match config.loginUrl with
  | none => (Except.error "loginUrl is required for autoToken credential", st)
  | some loginUrl =>
    match issue env (loginRequest credential loginUrl) st with
    | (FetchResult.netErr msg, st₁) => (Except.error msg, st₁)
    | (FetchResult.success r, st₁) =>
      if respOk r = false then
        (Except.error ("Login failed: " ++ natToStr r.status ++ " "
          ++ r.statusText ++ ". " ++ textOrEmpty r), st₁)
      else
        match r.json with
        | Except.error e => (Except.error e, st₁)
        | Except.ok responseBody =>
          let tokenPath := orDefault config.tokenPath "token"
          match getValueByPath responseBody tokenPath with
          | some (JSValue.vstr token) =>
            if token = "" then
              (Except.error (tokenExtractError tokenPath responseBody), st₁)
            else
              let entry : TokenCache :=
                { credentialId := credential.id, token := token,
                  obtainedAt := st₁.reqs.length }
              (Except.ok token,
               { st₁ with cache := cacheSet st₁.cache credential.id entry })
          | _ => (Except.error (tokenExtractError tokenPath responseBody), st₁)

/-- `checkTokenValidity` from `utils/api-client.ts`: no probe URL means
valid; otherwise probe with the token attached and treat a network
failure or an invalid status as invalid. -/
def checkTokenValidity (env : Env) (credential : Credential) (token : String)
    (st : St) : Bool × St :=
  let config := credential.config
  match config.validityCheckUrl with
  | none => (true, st)
  | some url =>
    match issue env (probeRequest credential url token) st with
    | (FetchResult.netErr _, st₁) => (false, st₁)
    | (FetchResult.success r, st₁) => (!(invalidCodes config).contains r.status, st₁)

/-- `getAutoToken` from `utils/api-client.ts`: use the cached token when
it passes the validity check, otherwise evict and log in again. -/
def getAutoToken (env : Env) (credential : Credential) (st : St) :
    Except String String × St :=
  match cacheGet st.cache credential.id with
  | some cached =>
    if cached.token ≠ "" then
      match checkTokenValidity env credential cached.token st with
      | (true, st₁) => (Except.ok cached.token, st₁)
      | (false, st₁) =>
        performLogin env credential
          { st₁ with cache := cacheDelete st₁.cache credential.id }
    else performLogin env credential st
  | none => performLogin env credential st

/-- `applyCredentials` from `utils/api-client.ts`: per-type header
injection; only the `autoToken` arm performs network I/O. -/
def applyCredentials (env : Env) (headers : Headers) (credential : Credential)
    (st : St) : Except String Headers × St :=
  let config := credential.config
  match credential.type with
  | CredType.apiKey =>
    match config.apiKeyHeader, config.apiKey with
    | some h, some k =>
      (Except.ok (if h ≠ "" ∧ k ≠ "" then hset headers h k else headers), st)
    | _, _ => (Except.ok headers, st)
  | CredType.bearer =>
    match config.token with
    | some t =>
      (Except.ok (if t ≠ "" then hset headers "Authorization" ("Bearer " ++ t)
        else headers), st)
    | none => (Except.ok headers, st)
  | CredType.basic =>
    match config.username, config.password with
    | some u, some p =>
      (Except.ok (if u ≠ "" ∧ p ≠ "" then
        hset headers "Authorization" ("Basic " ++ base64Encode (u ++ ":" ++ p))
        else headers), st)
    | _, _ => (Except.ok headers, st)
  | CredType.oauth2 =>
    match config.accessToken with
    | some t =>
      (Except.ok (if t ≠ "" then hset headers "Authorization" ("Bearer " ++ t)
        else headers), st)
    | none => (Except.ok headers, st)
  | CredType.custom =>
    (Except.ok (match config.headers with
      | some hs => hmergeList headers hs
      | none => headers), st)
  | CredType.customHeaders =>
    (Except.ok (match config.customHeaders with
      | some chs => chs.foldl (fun acc p => hset acc p.1 p.2) headers
      | none => headers), st)
  | CredType.autoToken =>
    match getAutoToken env credential st with
    | (Except.error e, st₁) => (Except.error e, st₁)
    | (Except.ok token, st₁) =>
      (Except.ok (hset headers (orDefault config.tokenHeader "Authorization")
        (nullishDefault config.tokenPrefix "Bearer " ++ token)), st₁)

/-- `executeRequest` from `utils/api-client.ts`: uppercase the method,
drop falsy bodies and bodies of GET/HEAD, issue the request; a network
failure is rethrown with the `Network error: ` prefix and is not retried
here. -/
def executeRequest (env : Env) (url method : String) (headers : Headers)
    (body : Option JSValue) (st : St) : Except String ApiCallResponse × St :=
  let m := upperStr method
  let startT := st.reqs.length
  match issue env (targetRequest url m headers body) st with
  | (FetchResult.netErr msg, st₁) =>
    (Except.error ("Network error: " ++ msg), st₁)
  | (FetchResult.success r, st₁) =>
    let resp : ApiCallResponse :=
      { status := r.status, statusText := r.statusText,
        headers := r.headers, body := parseRespBody r,
        timing :=
          { start := startT, stop := st₁.reqs.length,
            duration := st₁.reqs.length - startT } }
    (Except.ok resp, st₁)

/-- The retry condition of `makeApiCall` / the tool-layer `callRawApi`:
`credential?.type === 'autoToken' && credential.config.invalidStatusCodes?.includes(status)`
(no `[401,403]` default here: an absent list means no retry). -/
def retryGate (credential : Credential) (status : Nat) : Bool :=
  decide (credential.type = CredType.autoToken) &&
    (match credential.config.invalidStatusCodes with
     | some codes => codes.contains status
     | none => false)

/-- `makeApiCall` from `utils/api-client.ts`: build the URL and headers,
apply the credential, execute, and for an `autoToken` credential whose
response status is in `invalidStatusCodes`, evict the cached token,
re-apply credentials and retry exactly once, returning the second
response unconditionally. -/
def makeApiCall (env : Env) (request : ApiCallRequest) (apiDoc : ApiDoc)
    (credential : Option Credential) (st : St) : Except String ApiCallResponse × St :=
  match buildUrl apiDoc.baseUrl request.endpointPath request.pathParams request.queryParams with
  | Except.error e => (Except.error e, st)
  | Except.ok url =>
    let requestHeaders := hmergeList
      [("Content-Type", "application/json"), ("Accept", "application/json")]
      (request.headers.getD [])
    let afterCreds : Except String Headers × St :=
      match credential with
      | some cred => applyCredentials env requestHeaders cred st
      | none => (Except.ok requestHeaders, st)
    match afterCreds with
    | (Except.error e, st₁) => (Except.error e, st₁)
    | (Except.ok hdrs, st₁) =>
      match executeRequest env url request.method hdrs request.body st₁ with
      | (Except.error e, st₂) => (Except.error e, st₂)
      | (Except.ok response, st₂) =>
        match credential with
        | some cred =>
          if retryGate cred response.status then
            let st₃ := { st₂ with cache := cacheDelete st₂.cache cred.id }
            let retryHeaders := hmergeList
              [("Content-Type", "application/json"), ("Accept", "application/json")]
              (request.headers.getD [])
            match applyCredentials env retryHeaders cred st₃ with
            | (Except.error e, st₄) => (Except.error e, st₄)
            | (Except.ok hdrs₂, st₄) =>
              executeRequest env url request.method hdrs₂ request.body st₄
          else (Except.ok response, st₂)
        | none => (Except.ok response, st₂)

end ApiClient

/-! ### Storage collaborator (from `utils/storage.ts`, reduced to what the
call and credential tools consume; JSON persistence and credential
masking are outside the observed surface). -/

structure Storage where
  apiDocs : List ApiDoc := []
  credentials : List Credential := []
deriving Repr

/-- `storage.getCredential(id)`. -/
def Storage.getCredential (s : Storage) (id : String) : Option Credential :=
  s.credentials.find? (fun c => c.id == id)

/-- `storage.getWhitelistedBaseUrls()`. -/
def Storage.getWhitelistedBaseUrls (s : Storage) : List String :=
  s.apiDocs.map (fun d => d.baseUrl)

/-- `storage.addCredential(credential)`: throws if the id exists, else
appends and returns the new storage. -/
def Storage.addCredential (s : Storage) (credential : Credential) :
    Except String Storage :=
  match s.getCredential credential.id with
  | some _ =>
    Except.error ("Credential with id " ++ credential.id ++ " already exists")
  | none => Except.ok { s with credentials := s.credentials ++ [credential] }

/-- `storage.updateCredential(id, updates)` with the merged credential
already computed by the caller: replace in place, preserving the id and
stamping `updatedAt`. -/
def Storage.replaceCredential (s : Storage) (id : String) (updated : Credential) :
    Storage :=
  { s with credentials := s.credentials.map (fun c => if c.id == id then updated else c) }

/-- `joined || 'none'` for the whitelist suggestion text. -/
def joinOrNone (l : List String) : String :=
  let j := String.intercalate ", " l
  if j = "" then "none" else j

/-! ### The packages/api-testing tool layer (`tools/api-call.ts`) -/

/-- Response shape of `executeRawRequest` (flat `duration`). -/
structure RawResponse where
  status : Nat
  statusText : String
  headers : Headers
  body : JSValue
  duration : Nat
deriving Repr

/-- Parameters of the `call_raw_api` tool. -/
structure RawParams where
  url : String
  method : String
  headers : Option Headers := none
  body : Option JSValue := none
  credentialId : Option String := none
deriving Repr

/-- Structured result of the raw-call tools (never thrown). -/
structure RawResult where
  success : Bool
  response : Option RawResponse := none
  error : Option String := none
  suggestion : Option String := none
deriving Repr

namespace ApiTools

/-- `performAutoTokenLogin` from `tools/api-call.ts`: same login flow as
`performLogin`, but the token is returned without being written to the
token cache, and the extraction error carries no response preview. -/
def performAutoTokenLogin (env : Env) (credential : Credential) (st : St) :
    Except String String × St :=
  let config := credential.config
  match config.loginUrl with
  | none => (Except.error "loginUrl is required for autoToken credential", st)
  | some loginUrl =>
    match issue env (loginRequest credential loginUrl) st with
    | (FetchResult.netErr msg, st₁) => (Except.error msg, st₁)
    | (FetchResult.success r, st₁) =>
      if respOk r = false then
        (Except.error ("Login failed: " ++ natToStr r.status ++ " "
          ++ r.statusText ++ ". " ++ textOrEmpty r), st₁)
      else
        match r.json with
        | Except.error e => (Except.error e, st₁)
        | Except.ok responseBody =>
          let tokenPath := orDefault config.tokenPath "token"
          match getValueByPathTools responseBody tokenPath with
          | some (JSValue.vstr token) =>
            if token = "" then
              (Except.error ("Failed to extract token from login response using path "
                ++ tokenPath), st₁)
            else (Except.ok token, st₁)
          | _ =>
            (Except.error ("Failed to extract token from login response using path "
              ++ tokenPath), st₁)

/-- `applyCredentialsToHeaders` from `tools/api-call.ts`: identical to
`applyCredentials` except the `autoToken` arm, which consults the cache
directly and logs in (without caching) when no token is cached. -/
def applyCredentialsToHeaders (env : Env) (headers : Headers)
    (credential : Credential) (st : St) : Except String Headers × St :=
  let config := credential.config
  match credential.type with
  | CredType.autoToken =>
    let setTok := fun (token : String) =>
      hset headers (orDefault config.tokenHeader "Authorization")
        (nullishDefault config.tokenPrefix "Bearer " ++ token)
    (match ApiClient.getCachedToken st credential.id with
     | some t =>
       if t ≠ "" then (Except.ok (setTok t), st)
       else
         match performAutoTokenLogin env credential st with
         | (Except.error e, st₁) => (Except.error e, st₁)
         | (Except.ok token, st₁) => (Except.ok (setTok token), st₁)
     | none =>
       match performAutoTokenLogin env credential st with
       | (Except.error e, st₁) => (Except.error e, st₁)
       | (Except.ok token, st₁) => (Except.ok (setTok token), st₁))
  | _ => ApiClient.applyCredentials env headers credential st

/-- `executeRawRequest` from `tools/api-call.ts`: like `executeRequest`
but the method is used verbatim and, notably, the `fetch` call is not
wrapped in a try/catch, so a network failure propagates unprefixed. -/
def executeRawRequest (env : Env) (url method : String) (headers : Headers)
    (body : Option JSValue) (st : St) : Except String RawResponse × St :=
  let startT := st.reqs.length
  match issue env (targetRequest url method headers body) st with
  | (FetchResult.netErr msg, st₁) => (Except.error msg, st₁)
  | (FetchResult.success r, st₁) =>
    let resp : RawResponse :=
      { status := r.status, statusText := r.statusText,
        headers := r.headers, body := parseRespBody r,
        duration := st₁.reqs.length - startT }
    (Except.ok resp, st₁)

/-- The send-and-retry tail of `callRawApi` (after whitelist and
credential resolution): build headers, apply the credential, execute,
and retry exactly once through a fresh login when the status is in
`invalidStatusCodes`. -/
def callRawApiSend (env : Env) (params : RawParams)
    (credential : Option Credential) (st : St) : Except String RawResult × St :=
  let headers := hmergeList
    [("Content-Type", "application/json"), ("Accept", "application/json")]
    (params.headers.getD [])
  let afterCreds : Except String Headers × St :=
    match credential with
    | some cred => applyCredentialsToHeaders env headers cred st
    | none => (Except.ok headers, st)
  match afterCreds with
  | (Except.error e, st₁) => (Except.error e, st₁)
  | (Except.ok hdrs, st₁) =>
    match executeRawRequest env params.url params.method hdrs params.body st₁ with
    | (Except.error e, st₂) => (Except.error e, st₂)
    | (Except.ok response, st₂) =>
      match credential with
      | some cred =>
        if ApiClient.retryGate cred response.status then
          let st₃ := { st₂ with cache := cacheDelete st₂.cache cred.id }
          let retryHeaders := hmergeList
            [("Content-Type", "application/json"), ("Accept", "application/json")]
            (params.headers.getD [])
          match applyCredentialsToHeaders env retryHeaders cred st₃ with
          | (Except.error e, st₄) => (Except.error e, st₄)
          | (Except.ok hdrs₂, st₄) =>
            match executeRawRequest env params.url params.method hdrs₂ params.body st₄ with
            | (Except.error e, st₅) => (Except.error e, st₅)
            | (Except.ok response₂, st₅) =>
              (Except.ok { success := true, response := some response₂ }, st₅)
        else (Except.ok { success := true, response := some response }, st₂)
      | none => (Except.ok { success := true, response := some response }, st₂)

/-- The body of `callRawApi` before the surrounding try/catch: whitelist
gate first (no request issued on rejection), then credential lookup,
then send with bounded retry. -/
def callRawApiInner (env : Env) (storage : Storage) (params : RawParams)
    (st : St) : Except String RawResult × St :=
  let whitelistedUrls := storage.getWhitelistedBaseUrls
  let validation := validateUrlAgainstWhitelist params.url whitelistedUrls
  if validation.valid = false then
    let res : RawResult :=
      { success := false,
        error := some ("URL is not whitelisted: " ++ params.url),
        suggestion := some ("Add an API doc with this baseURL to whitelist it. Current whitelisted URLs: "
          ++ joinOrNone whitelistedUrls) }
    (Except.ok res, st)
  else
    match params.credentialId with
    | some cid =>
      match storage.getCredential cid with
      | none =>
        let res : RawResult :=
          { success := false,
            error := some ("Credential " ++ cid ++ " not found") }
        (Except.ok res, st)
      | some cred => callRawApiSend env params (some cred) st
    | none => callRawApiSend env params none st

/-- `callRawApi` from `packages/api-testing/src/tools/api-call.ts`: the
outer try/catch converts any thrown error into `{success:false, error}`. -/
def callRawApi (env : Env) (storage : Storage) (params : RawParams)
    (st : St) : RawResult × St :=
  match callRawApiInner env storage params st with
  | (Except.ok r, st₁) => (r, st₁)
  | (Except.error e, st₁) => ({ success := false, error := some e }, st₁)

end ApiTools

/-! ### The api-scout credential tools (`api-scout/src/tools/credentials.ts`) -/

namespace Scout

/-- Parameters of `add_credential` (zod schema of `credentials.ts`;
fields with zod defaults are kept optional because the tool re-applies
the same defaults with `||`/`??`; `skipValidityCheck` has `default(false)`). -/
structure AddCredentialParams where
  id : String
  name : String
  type : CredType
  apiDocId : Option String := none
  apiKey : Option String := none
  apiKeyHeader : Option String := none
  token : Option String := none
  username : Option String := none
  password : Option String := none
  clientId : Option String := none
  clientSecret : Option String := none
  accessToken : Option String := none
  refreshToken : Option String := none
  tokenUrl : Option String := none
  headers : Option Headers := none
  customHeaders : Option (List (String × String)) := none
  refreshUrl : Option String := none
  refreshMethod : Option String := none
  refreshTokenPath : Option String := none
  loginUrl : Option String := none
  loginMethod : Option String := none
  loginBody : Option JSValue := none
  loginHeaders : Option Headers := none
  tokenPath : Option String := none
  tokenHeader : Option String := none
  tokenPrefix : Option String := none
  invalidStatusCodes : Option (List Nat) := none
  validityCheckUrl : Option String := none
  validityCheckMethod : Option String := none
  skipValidityCheck : Bool := false
deriving Repr

/-- The credential summary returned by the credential tools. -/
structure CredSummary where
  id : String
  name : String
  type : CredType
  apiDocId : Option String := none
  createdAt : Option String := none
  updatedAt : Option String := none
deriving Repr

/-- Structured result of `add_credential` / `update_credential`. -/
structure CredToolResult where
  success : Bool
  credential : Option CredSummary := none
  error : Option String := none
deriving Repr

/-- The `switch (params.type)` of `addCredential` that builds the config
or returns the per-type validation error. The `bearer` arm requires
`token` or `loginUrl`, and whenever `loginUrl` is given it requires
`loginBody` unconditionally (no exception for GET logins) before copying
the smart-bearer fields; a `refreshUrl` adds the refresh fields and
backfills `invalidStatusCodes`. `autoToken` has no case in this switch
(the api-scout schema does not admit it), leaving the config empty. -/
def buildConfig (params : AddCredentialParams) : Except String CredentialConfig :=
  match params.type with
  | CredType.apiKey =>
    if optTruthy params.apiKey = false then
      Except.error "apiKey is required for apiKey type"
    else
      Except.ok { apiKey := params.apiKey,
                  apiKeyHeader := some (orDefault params.apiKeyHeader "X-API-Key") }
  | CredType.bearer =>
    if optTruthy params.token = false ∧ optTruthy params.loginUrl = false then
      Except.error "Either token or loginUrl is required for bearer type"
    else
      let c1 : CredentialConfig :=
        if optTruthy params.token then { token := params.token } else {}
      let afterLogin : Except String CredentialConfig :=
        if optTruthy params.loginUrl then
          if ((params.loginBody.map JSValue.truthy).getD false) = false then
            Except.error "loginBody is required when loginUrl is provided"
          else
            Except.ok { c1 with
              loginUrl := params.loginUrl,
              loginMethod := some (orDefault params.loginMethod "POST"),
              loginBody := params.loginBody,
              loginHeaders := params.loginHeaders,
              tokenPath := some (orDefault params.tokenPath "token"),
              tokenHeader := some (orDefault params.tokenHeader "Authorization"),
              tokenPrefix := some (nullishDefault params.tokenPrefix "Bearer "),
              invalidStatusCodes := some (params.invalidStatusCodes.getD [401, 403]),
              validityCheckUrl :=
                if optTruthy params.validityCheckUrl then params.validityCheckUrl else none,
              validityCheckMethod :=
                if optTruthy params.validityCheckUrl then
                  some (orDefault params.validityCheckMethod "GET")
                else none }
        else Except.ok c1
      match afterLogin with
      | Except.error e => Except.error e
      | Except.ok c2 =>
        if optTruthy params.refreshUrl then
          Except.ok { c2 with
            refreshUrl := params.refreshUrl,
            refreshMethod := some (orDefault params.refreshMethod "POST"),
            refreshTokenPath := params.refreshTokenPath,
            invalidStatusCodes :=
              match c2.invalidStatusCodes with
              | some codes => some codes
              | none => some (params.invalidStatusCodes.getD [401, 403]) }
        else Except.ok c2
  | CredType.basic =>
    if optTruthy params.username = false ∨ optTruthy params.password = false then
      Except.error "username and password are required for basic type"
    else Except.ok { username := params.username, password := params.password }
  | CredType.oauth2 =>
    if optTruthy params.accessToken = false ∧ optTruthy params.clientId = false then
      Except.error "accessToken or clientId/clientSecret are required for oauth2 type"
    else
      Except.ok { clientId := params.clientId, clientSecret := params.clientSecret,
                  accessToken := params.accessToken, refreshToken := params.refreshToken,
                  tokenUrl := params.tokenUrl }
  | CredType.custom =>
    match params.headers with
    | some hs =>
      if hs.isEmpty then Except.error "headers are required for custom type"
      else Except.ok { headers := some hs }
    | none => Except.error "headers are required for custom type"
  | CredType.customHeaders =>
    match params.customHeaders with
    | some chs =>
      if chs.isEmpty then
        Except.error "customHeaders (1-5 headers) are required for customHeaders type"
      else if chs.length > 5 then
        Except.error "customHeaders type supports maximum 5 headers"
      else Except.ok { customHeaders := some chs }
    | none =>
      Except.error "customHeaders (1-5 headers) are required for customHeaders type"
  | CredType.autoToken => Except.ok {}

/-- Modelled from the spec: `testCredentialLogin` lives in the api-scout
`utils/api-client.ts`, which is not among the provided sources; the spec
describes it as identical to the login operation while not requiring the
credential to be persisted, and propagating failure unmodified. The login
operation itself is the one embedded from the packages variant. -/
def testCredentialLogin (env : Env) (credential : Credential) (st : St) :
    Except String String × St :=
  ApiClient.performLogin env credential st

/-- The successful tail of `addCredential`: persist via
`storage.addCredential` (whose throw would be caught into a structured
failure) and return the summary. -/
def saveNewCredential (storage : Storage) (credential : Credential) (st : St) :
    CredToolResult × Storage × St :=
  match storage.addCredential credential with
  | Except.error e => ({ success := false, error := some e }, storage, st)
  | Except.ok storage₂ =>
    let res : CredToolResult :=
      { success := true,
        credential := some
          { id := credential.id, name := credential.name, type := credential.type,
            apiDocId := credential.apiDocId, createdAt := some credential.createdAt } }
    (res, storage₂, st)

/-- `addCredential` from `api-scout/src/tools/credentials.ts`: reject a
duplicate id, build the per-type config, then — when the resulting config
has a `loginUrl` and `skipValidityCheck` is not set — run
`testCredentialLogin` synchronously and reject the whole operation on
failure with a `Credential verification failed:` error, persisting only
on success. `now` is the ambient `new Date().toISOString()`. -/
def addCredential (env : Env) (storage : Storage) (params : AddCredentialParams)
    (now : String) (st : St) : CredToolResult × Storage × St :=
  match storage.getCredential params.id with
  | some _ =>
    ({ success := false, error := some ("Credential " ++ params.id ++ " already exists") },
     storage, st)
  | none =>
    match buildConfig params with
    | Except.error e => ({ success := false, error := some e }, storage, st)
    | Except.ok config =>
      let credential : Credential :=
        { id := params.id, name := params.name, type := params.type,
          apiDocId := params.apiDocId, config := config,
          createdAt := now, updatedAt := now }
      if optTruthy config.loginUrl ∧ params.skipValidityCheck = false then
        match testCredentialLogin env credential st with
        | (Except.error e, st₁) =>
          ({ success := false,
             error := some ("Credential verification failed: " ++ e
               ++ ". Use skipValidityCheck=true to force save.") }, storage, st₁)
        | (Except.ok _, st₁) => saveNewCredential storage credential st₁
      else saveNewCredential storage credential st

/-- Parameters of `update_credential` (`skipValidityCheck` has no zod
default here, so it is a plain optional boolean). -/
structure UpdateCredentialParams where
  id : String
  name : Option String := none
  apiKey : Option String := none
  token : Option String := none
  username : Option String := none
  password : Option String := none
  accessToken : Option String := none
  refreshToken : Option String := none
  headers : Option Headers := none
  customHeaders : Option (List (String × String)) := none
  loginBody : Option JSValue := none
  invalidStatusCodes : Option (List Nat) := none
  refreshUrl : Option String := none
  refreshMethod : Option String := none
  refreshTokenPath : Option String := none
  loginUrl : Option String := none
  loginMethod : Option String := none
  tokenPath : Option String := none
  skipValidityCheck : Option Bool := none
deriving Repr

/-- The field-by-field `if (params.x !== undefined)` merge of
`updateCredential` after the `customHeaders` length check. -/
def mergeTail (c : CredentialConfig) (p : UpdateCredentialParams) : CredentialConfig :=
  { c with
    loginBody := p.loginBody <|> c.loginBody,
    invalidStatusCodes := p.invalidStatusCodes <|> c.invalidStatusCodes,
    refreshUrl := p.refreshUrl <|> c.refreshUrl,
    refreshMethod := p.refreshMethod <|> c.refreshMethod,
    refreshTokenPath := p.refreshTokenPath <|> c.refreshTokenPath,
    loginUrl := p.loginUrl <|> c.loginUrl,
    loginMethod := p.loginMethod <|> c.loginMethod,
    tokenPath := p.tokenPath <|> c.tokenPath }

/-- The config merge of `updateCredential`, with the early return for an
over-long `customHeaders` array. -/
def mergeConfig (c0 : CredentialConfig) (p : UpdateCredentialParams) :
    Except String CredentialConfig :=
  let c1 := { c0 with
    apiKey := p.apiKey <|> c0.apiKey,
    token := p.token <|> c0.token,
    username := p.username <|> c0.username,
    password := p.password <|> c0.password,
    accessToken := p.accessToken <|> c0.accessToken,
    refreshToken := p.refreshToken <|> c0.refreshToken,
    headers := p.headers <|> c0.headers }
  match p.customHeaders with
  | some chs =>
    if chs.length > 5 then Except.error "customHeaders supports maximum 5 headers"
    else Except.ok (mergeTail { c1 with customHeaders := some chs } p)
  | none => Except.ok (mergeTail c1 p)

/-- The inner condition of the update verification gate:
`updates.config?.loginUrl || loginMethod || loginBody || loginHeaders || refreshUrl`
on the merged config (JS truthiness per field). -/
def touchedLoginConfig (c : CredentialConfig) : Bool :=
  optTruthy c.loginUrl || optTruthy c.loginMethod
    || (c.loginBody.map JSValue.truthy).getD false
    || c.loginHeaders.isSome || optTruthy c.refreshUrl

/-- The successful tail of `updateCredential`: replace the stored
credential (update via `storage.updateCredential`, which preserves the id
and stamps `updatedAt := now`) and return the summary. -/
def saveUpdatedCredential (storage : Storage) (existing : Credential)
    (newName : String) (newConfig : CredentialConfig) (now : String) (st : St) :
    CredToolResult × Storage × St :=
  let updated : Credential :=
    { existing with name := newName, config := newConfig, updatedAt := now }
  let res : CredToolResult :=
    { success := true,
      credential := some
        { id := updated.id, name := updated.name, type := updated.type,
          apiDocId := updated.apiDocId, updatedAt := some updated.updatedAt } }
  (res, storage.replaceCredential existing.id updated, st)

/-- `updateCredential` from `api-scout/src/tools/credentials.ts`: look up
the credential, merge the config, and — when the merged config has a
`loginUrl` and `skipValidityCheck` is not `true` — run
`testCredentialLogin` on a temporary merged credential, rejecting the
update on failure; the inner login-fields condition is checked as in the
source (it is implied by the outer one). -/
def updateCredential (env : Env) (storage : Storage)
    (params : UpdateCredentialParams) (now : String) (st : St) :
    CredToolResult × Storage × St :=
  match storage.getCredential params.id with
  | none =>
    ({ success := false, error := some ("Credential " ++ params.id ++ " not found") },
     storage, st)
  | some existing =>
    match mergeConfig existing.config params with
    | Except.error e => ({ success := false, error := some e }, storage, st)
    | Except.ok newConfig =>
      let newName := params.name.getD existing.name
      if optTruthy newConfig.loginUrl ∧ params.skipValidityCheck ≠ some true then
        if touchedLoginConfig newConfig then
          let tempCredential : Credential :=
            { existing with name := newName, config := newConfig }
          match testCredentialLogin env tempCredential st with
          | (Except.error e, st₁) =>
            ({ success := false,
               error := some ("Credential verification failed: " ++ e
                 ++ ". Use skipValidityCheck=true to force save.") }, storage, st₁)
          | (Except.ok _, st₁) =>
            saveUpdatedCredential storage existing newName newConfig now st₁
        else saveUpdatedCredential storage existing newName newConfig now st
      else saveUpdatedCredential storage existing newName newConfig now st

end Scout

/-! ### The api-scout call layer

`api-scout/src/tools/api-call.ts` imports `applyCredentials` and
`executeRequestWithAuthRetry` from its own `utils/api-client.ts`, which is
not among the provided sources (only the older pre-Smart-Bearer client in
the related documents is). The missing operations are modelled from the
spec (sections 4.3, 4.4 and 4.5) below. -/

/-- The request record built by the spec-modelled refresh operation. -/
def refreshRequest (credential : Credential) (refreshUrl rt : String) : HttpRequest :=
  { kind := ReqKind.refresh, url := refreshUrl,
    method := orDefault credential.config.refreshMethod "POST",
    headers := [("Content-Type", "application/json"), ("Accept", "application/json")],
    body := if orDefault credential.config.refreshMethod "POST" = "GET" then none
      else some (JSValue.vobj [("refreshToken", JSValue.vstr rt)]) }

namespace Scout

/-- Modelled from the spec: the `refresh` operation of the missing
api-scout `utils/api-client.ts` (spec 4.4): same shape as login but
against `refreshUrl`/`refreshMethod`, sending the cached refresh token in
the body, extracting the new access token at `tokenPath` and a new
refresh token at `refreshTokenPath` (default `refreshToken`) when
present, and caching both. -/
def refreshOp (env : Env) (credential : Credential) (rt : String) (st : St) :
    Except String String × St :=
  let config := credential.config
  match config.refreshUrl with
  | none => (Except.error "refreshUrl is required for refresh", st)
  | some refreshUrl =>
    match issue env (refreshRequest credential refreshUrl rt) st with
    | (FetchResult.netErr msg, st₁) => (Except.error msg, st₁)
    | (FetchResult.success r, st₁) =>
      if respOk r = false then
        (Except.error ("Refresh failed: " ++ natToStr r.status ++ " " ++ r.statusText), st₁)
      else
        match r.json with
        | Except.error e => (Except.error e, st₁)
        | Except.ok responseBody =>
          let tokenPath := orDefault config.tokenPath "token"
          match getValueByPath responseBody tokenPath with
          | some (JSValue.vstr token) =>
            if token = "" then
              (Except.error ("Failed to extract token from refresh response using path "
                ++ tokenPath), st₁)
            else
              let rtPath := orDefault config.refreshTokenPath "refreshToken"
              let newRt := match getValueByPath responseBody rtPath with
                | some (JSValue.vstr s) => if s = "" then none else some s
                | _ => none
              let entry : TokenCache :=
                { credentialId := credential.id, token := token,
                  refreshToken := newRt, obtainedAt := st₁.reqs.length }
              (Except.ok token,
               { st₁ with cache := cacheSet st₁.cache credential.id entry })
          | _ =>
            (Except.error ("Failed to extract token from refresh response using path "
              ++ tokenPath), st₁)

/-- Modelled from the spec: `obtainToken` of the missing api-scout
`utils/api-client.ts` (spec 4.4): a cached entry is validity-checked
(probe only when `validityCheckUrl` is configured); a valid token is
returned as-is; otherwise the entry is evicted and, when `refreshUrl` is
configured and a cached refresh token exists, refresh is attempted first,
falling back to a full login on any refresh failure; without refresh
capability it logs in directly. -/
def obtainToken (env : Env) (credential : Credential) (st : St) :
    Except String String × St :=
  match cacheGet st.cache credential.id with
  | some cached =>
    match ApiClient.checkTokenValidity env credential cached.token st with
    | (true, st₁) => (Except.ok cached.token, st₁)
    | (false, st₁) =>
      let st₂ := { st₁ with cache := cacheDelete st₁.cache credential.id }
      match credential.config.refreshUrl, cached.refreshToken with
      | some _, some rt =>
        (match refreshOp env credential rt st₂ with
         | (Except.ok token, st₃) => (Except.ok token, st₃)
         | (Except.error _, st₃) => ApiClient.performLogin env credential st₃)
      | _, _ => ApiClient.performLogin env credential st₂
  | none => ApiClient.performLogin env credential st

/-- Modelled from the spec: the api-scout `applyCredentials` (spec 4.3):
as the packages variant for the static types, except that a `bearer`
credential with a `loginUrl` is dynamic and delegates to `obtainToken`;
a static `bearer` credential injects its stored token. Types outside the
table leave the headers unchanged. -/
def applyCredentials (env : Env) (headers : Headers) (credential : Credential)
    (st : St) : Except String Headers × St :=
  let config := credential.config
  match credential.type with
  | CredType.bearer =>
    if optTruthy config.loginUrl then
      match obtainToken env credential st with
      | (Except.error e, st₁) => (Except.error e, st₁)
      | (Except.ok token, st₁) =>
        (Except.ok (hset headers (orDefault config.tokenHeader "Authorization")
          (nullishDefault config.tokenPrefix "Bearer " ++ token)), st₁)
    else
      (Except.ok (match config.token with
        | some t => if t ≠ "" then hset headers "Authorization" ("Bearer " ++ t) else headers
        | none => headers), st)
  | CredType.autoToken => (Except.ok headers, st)
  | _ => ApiClient.applyCredentials env headers credential st

/-- Is this credential of the dynamic-bearer (Smart Bearer) shape? -/
def smartBearer (credential : Credential) : Bool :=
  decide (credential.type = CredType.bearer) && optTruthy credential.config.loginUrl

/-- Modelled from the spec: `executeRequestWithAuthRetry` of the missing
api-scout `utils/api-client.ts` (spec 4.5): execute once; when a
dynamic-bearer credential was used and the status is in its
`invalidStatusCodes`, evict the cached token, re-apply credentials
(driving `obtainToken` through refresh/login) and execute exactly once
more, returning the second response unconditionally. -/
def executeRequestWithAuthRetry (env : Env) (url method : String)
    (headers : Headers) (body : Option JSValue) (credential : Option Credential)
    (st : St) : Except String ApiCallResponse × St :=
  match ApiClient.executeRequest env url method headers body st with
  | (Except.error e, st₁) => (Except.error e, st₁)
  | (Except.ok response, st₁) =>
    match credential with
    | some cred =>
      if smartBearer cred && (invalidCodes cred.config).contains response.status then
        let st₂ := { st₁ with cache := cacheDelete st₁.cache cred.id }
        match applyCredentials env headers cred st₂ with
        | (Except.error e, st₃) => (Except.error e, st₃)
        | (Except.ok hdrs₂, st₃) =>
          ApiClient.executeRequest env url method hdrs₂ body st₃
      else (Except.ok response, st₁)
    | none => (Except.ok response, st₁)

/-- The body of the api-scout `callRawApi` before its try/catch
(`api-scout/src/tools/api-call.ts`): whitelist gate, credential lookup,
credential application, then the retrying executor. -/
def callRawApiInner (env : Env) (storage : Storage) (params : RawParams)
    (st : St) : Except String RawResult × St :=
  let whitelistedUrls := storage.getWhitelistedBaseUrls
  let validation := validateUrlAgainstWhitelist params.url whitelistedUrls
  if validation.valid = false then
    let res : RawResult :=
      { success := false,
        error := some ("URL is not whitelisted: " ++ params.url),
        suggestion := some ("Add an API doc with this baseURL to whitelist it. Current whitelisted URLs: "
          ++ joinOrNone whitelistedUrls) }
    (Except.ok res, st)
  else
    let send := fun (credential : Option Credential) (st : St) =>
      let headers := hmergeList
        [("Content-Type", "application/json"), ("Accept", "application/json")]
        (params.headers.getD [])
      let afterCreds : Except String Headers × St :=
        match credential with
        | some cred => applyCredentials env headers cred st
        | none => (Except.ok headers, st)
      match afterCreds with
      | (Except.error e, st₁) => (Except.error e, st₁)
      | (Except.ok hdrs, st₁) =>
        match executeRequestWithAuthRetry env params.url params.method hdrs
            params.body credential st₁ with
        | (Except.error e, st₂) => (Except.error e, st₂)
        | (Except.ok response, st₂) =>
          let raw : RawResponse :=
            { status := response.status, statusText := response.statusText,
              headers := response.headers, body := response.body,
              duration := response.timing.duration }
          (Except.ok { success := true, response := some raw }, st₂)
    match params.credentialId with
    | some cid =>
      match storage.getCredential cid with
      | none =>
        let res : RawResult :=
          { success := false,
            error := some ("Credential " ++ cid ++ " not found") }
        (Except.ok res, st)
      | some cred => send (some cred) st
    | none => send none st

/-- `callRawApi` from `api-scout/src/tools/api-call.ts`: the catch block
rewrites connection failures into a `Connection failed:` message with a
suggestion, and returns a structured failure in every thrown case. -/
def callRawApi (env : Env) (storage : Storage) (params : RawParams)
    (st : St) : RawResult × St :=
  match callRawApiInner env storage params st with
  | (Except.ok r, st₁) => (r, st₁)
  | (Except.error e, st₁) =>
    if strContains e "fetch failed" || strContains e "ECONNREFUSED" then
      ({ success := false, error := some ("Connection failed: " ++ e),
         suggestion := some "Verify that the target server is running and accessible." }, st₁)
    else ({ success := false, error := some e }, st₁)

end Scout

/-! ### Claim theorems -/

/-- C6: a `callRawApi` request whose URL fails the whitelist check returns
the structured failure `URL is not whitelisted: <url>` with the
whitelist-listing suggestion, leaves the process state untouched (so no
HTTP request is ever issued), and nothing is thrown — in both the
api-scout and the packages tool layers. -/
theorem callRawApi_whitelist_reject (env : Env) (storage : Storage)
    (params : RawParams) (st : St)
    (h : (validateUrlAgainstWhitelist params.url storage.getWhitelistedBaseUrls).valid = false) :
    Scout.callRawApi env storage params st =
      ({ success := false,
         error := some ("URL is not whitelisted: " ++ params.url),
         suggestion := some ("Add an API doc with this baseURL to whitelist it. Current whitelisted URLs: "
           ++ joinOrNone storage.getWhitelistedBaseUrls) }, st) ∧
    ApiTools.callRawApi env storage params st =
      ({ success := false,
         error := some ("URL is not whitelisted: " ++ params.url),
         suggestion := some ("Add an API doc with this baseURL to whitelist it. Current whitelisted URLs: "
           ++ joinOrNone storage.getWhitelistedBaseUrls) }, st) := by
  constructor
  · simp [Scout.callRawApi, Scout.callRawApiInner, h]
  · simp [ApiTools.callRawApi, ApiTools.callRawApiInner, h]

/-- C6 witness: a raw call to a URL outside an empty whitelist. -/
theorem callRawApi_whitelist_reject_witness :
    (validateUrlAgainstWhitelist "https://api.example.com/x"
      (Storage.getWhitelistedBaseUrls {}) ).valid = false ∧
    Scout.callRawApi (fun _ => FetchResult.netErr "down") {}
      { url := "https://api.example.com/x", method := "GET" } {} =
      ({ success := false,
         error := some "URL is not whitelisted: https://api.example.com/x",
         suggestion := some "Add an API doc with this baseURL to whitelist it. Current whitelisted URLs: none" },
       {}) :=
  ⟨rfl,
   by
    have h := callRawApi_whitelist_reject (fun _ => FetchResult.netErr "down") {}
      { url := "https://api.example.com/x", method := "GET" } {} rfl
    exact h.1⟩

/-- C9 (counterexample): the claim says a bearer credential with a
`loginUrl`, `loginMethod` GET and no `loginBody` is accepted, but
`addCredential` rejects it: the `loginBody` requirement has no exception
for GET logins. -/
theorem addCredential_get_without_loginBody_rejected :
    (Scout.addCredential (fun _ => FetchResult.netErr "down") {}
      { id := "c1", name := "n", type := CredType.bearer,
        loginUrl := some "https://auth.example.com/login",
        loginMethod := some "GET" } "2024-01-01T00:00:00Z" {}).1
      = { success := false,
          error := some "loginBody is required when loginUrl is provided" } := by
  rfl

/-- C9 (amended): for a bearer `add_credential`, admission requires
`token` or `loginUrl`; and whenever `loginUrl` is provided, `loginBody`
is required for every login method, GET included — in both failure cases
nothing is persisted and no request is issued. -/
theorem addCredential_bearer_admission (env : Env) (storage : Storage)
    (params : Scout.AddCredentialParams) (now : String) (st : St)
    (htype : params.type = CredType.bearer)
    (hfresh : storage.getCredential params.id = none) :
    (optTruthy params.token = false ∧ optTruthy params.loginUrl = false →
      Scout.addCredential env storage params now st =
        ({ success := false,
           error := some "Either token or loginUrl is required for bearer type" },
         storage, st)) ∧
    (optTruthy params.loginUrl = true ∧
        (params.loginBody.map JSValue.truthy).getD false = false →
      Scout.addCredential env storage params now st =
        ({ success := false,
           error := some "loginBody is required when loginUrl is provided" },
         storage, st)) := by
  constructor
  · rintro ⟨h1, h2⟩
    simp [Scout.addCredential, Scout.buildConfig, hfresh, htype, h1, h2]
  · rintro ⟨h1, h2⟩
    simp [Scout.addCredential, Scout.buildConfig, hfresh, htype, h1, h2]

/-- C9 witness: concrete rejected bearer requests of both shapes. -/
theorem addCredential_bearer_admission_witness :
    (Scout.addCredential (fun _ => FetchResult.netErr "down") {}
      { id := "c2", name := "n", type := CredType.bearer } "t" {} =
      ({ success := false,
         error := some "Either token or loginUrl is required for bearer type" },
       {}, {})) ∧
    (Scout.addCredential (fun _ => FetchResult.netErr "down") {}
      { id := "c3", name := "n", type := CredType.bearer,
        loginUrl := some "https://auth.example.com/login",
        loginMethod := some "GET" } "t" {} =
      ({ success := false,
         error := some "loginBody is required when loginUrl is provided" },
       {}, {})) :=
  ⟨(addCredential_bearer_admission (fun _ => FetchResult.netErr "down") {}
      { id := "c2", name := "n", type := CredType.bearer } "t" {} rfl rfl).1
    ⟨rfl, rfl⟩,
   (addCredential_bearer_admission (fun _ => FetchResult.netErr "down") {}
      { id := "c3", name := "n", type := CredType.bearer,
        loginUrl := some "https://auth.example.com/login",
        loginMethod := some "GET" } "t" {} rfl rfl).2
    ⟨rfl, rfl⟩⟩

/-- C8 (counterexample): the claim also covers the tool-layer executor
`executeRawRequest`, but there the `fetch` is not wrapped: a network
failure surfaces with the raw message, which does not carry the
`Network error: ` prefix. -/
theorem executeRawRequest_unwrapped_network_error :
    (ApiTools.executeRawRequest (fun _ => FetchResult.netErr "fetch failed")
      "https://api.example.com/x" "GET" [] none {}).1 = Except.error "fetch failed" ∧
    "Network error: ".data.isPrefixOf "fetch failed".data = false :=
  ⟨rfl, rfl⟩

/-- C8 (amended): `executeRequest` (the utils api-client executor) wraps a
network-level fetch failure as `Network error: <msg>` and issues exactly
one request (no retry at that layer); the packages tool layer
`executeRawRequest` propagates the raw message instead, and the tool
boundary (`callRawApi`) converts either into a structured
`{success:false, error}` result rather than throwing. -/
theorem executeRequest_network_error_wrapped :
    (∀ (env : Env) (url method : String) (headers : Headers)
        (body : Option JSValue) (st : St) (m : String),
      env st.reqs.length = FetchResult.netErr m →
      ∃ req, ApiClient.executeRequest env url method headers body st
        = (Except.error ("Network error: " ++ m),
           { st with reqs := st.reqs ++ [req] })) ∧
    (∀ (env : Env) (storage : Storage) (params : RawParams) (st : St) (m : String),
      (validateUrlAgainstWhitelist params.url storage.getWhitelistedBaseUrls).valid = true →
      params.credentialId = none →
      env st.reqs.length = FetchResult.netErr m →
      ∃ req, ApiTools.callRawApi env storage params st
        = ({ success := false, error := some m },
           { st with reqs := st.reqs ++ [req] })) := by
  constructor
  · intro env url method headers body st m h
    unfold ApiClient.executeRequest
    simp only [issue, h]
    exact ⟨_, rfl⟩
  · intro env storage params st m hvalid hcred h
    unfold ApiTools.callRawApi ApiTools.callRawApiInner ApiTools.callRawApiSend
      ApiTools.executeRawRequest
    simp only [issue, h, hvalid, hcred]
    exact ⟨_, rfl⟩

/-- C8 witness: a concrete network failure through both executors. -/
theorem executeRequest_network_error_wrapped_witness :
    (∃ req, ApiClient.executeRequest (fun _ => FetchResult.netErr "fetch failed")
      "https://api.example.com/x" "GET" [] none {}
        = (Except.error "Network error: fetch failed", { reqs := [req] })) ∧
    (∃ req, ApiTools.callRawApi (fun _ => FetchResult.netErr "fetch failed")
      { apiDocs := [{ id := "d", baseUrl := "https://api.example.com" }] }
      { url := "https://api.example.com/x", method := "GET" } {}
        = ({ success := false, error := some "fetch failed" }, { reqs := [req] })) :=
  ⟨executeRequest_network_error_wrapped.1 (fun _ => FetchResult.netErr "fetch failed")
      "https://api.example.com/x" "GET" [] none {} "fetch failed" rfl,
   executeRequest_network_error_wrapped.2 (fun _ => FetchResult.netErr "fetch failed")
      { apiDocs := [{ id := "d", baseUrl := "https://api.example.com" }] }
      { url := "https://api.example.com/x", method := "GET" } {} "fetch failed"
      rfl rfl rfl⟩

/-- C7: with a cached token and a configured validity-check URL whose
probe status is not invalid, `getAutoToken` returns the cached token
after exactly one probe request (whose kind is a validity probe, never a
login), twice in a row each call adds exactly one probe and the cache
never changes; without a `validityCheckUrl`, cache presence alone counts
as valid and no request at all is issued. -/
theorem getAutoToken_cached_valid_idempotent :
    (∀ (env : Env) (cred : Credential) (st : St) (cached : TokenCache)
        (vu : String) (r₁ r₂ : Resp),
      cacheGet st.cache cred.id = some cached →
      cached.token ≠ "" →
      cred.config.validityCheckUrl = some vu →
      env st.reqs.length = FetchResult.success r₁ →
      (invalidCodes cred.config).contains r₁.status = false →
      env (st.reqs.length + 1) = FetchResult.success r₂ →
      (invalidCodes cred.config).contains r₂.status = false →
      (probeRequest cred vu cached.token).kind = ReqKind.validity ∧
      ApiClient.getAutoToken env cred st =
        (Except.ok cached.token,
         { st with reqs := st.reqs ++ [probeRequest cred vu cached.token] }) ∧
      ApiClient.getAutoToken env cred
          { st with reqs := st.reqs ++ [probeRequest cred vu cached.token] } =
        (Except.ok cached.token,
         { st with reqs := st.reqs
            ++ [probeRequest cred vu cached.token, probeRequest cred vu cached.token] })) ∧
    (∀ (env : Env) (cred : Credential) (st : St) (cached : TokenCache),
      cacheGet st.cache cred.id = some cached →
      cached.token ≠ "" →
      cred.config.validityCheckUrl = none →
      ApiClient.getAutoToken env cred st = (Except.ok cached.token, st)) := by
  constructor
  · intro env cred st cached vu r₁ r₂ hc htok hvu henv₁ hst₁ henv₂ hst₂
    refine ⟨rfl, ?_, ?_⟩
    · unfold ApiClient.getAutoToken ApiClient.checkTokenValidity
      simp only [hc]
      rw [if_pos htok]
      simp only [hvu, issue, henv₁, hst₁, Bool.not_false]
    · unfold ApiClient.getAutoToken ApiClient.checkTokenValidity
      simp only [hc]
      rw [if_pos htok]
      simp only [hvu, issue, List.length_append, List.length_cons,
        List.length_nil, henv₂, hst₂, Bool.not_false, List.append_assoc]
      simp
  · intro env cred st cached hc htok hvu
    unfold ApiClient.getAutoToken ApiClient.checkTokenValidity
    simp only [hc]
    rw [if_pos htok]
    simp only [hvu]

/-- C7 witness: a concrete cached token probed successfully twice, and a
concrete probe-free credential. -/
theorem getAutoToken_cached_valid_idempotent_witness :
    (ApiClient.getAutoToken (fun _ => FetchResult.success { status := 200 })
      { id := "c1", name := "n", type := CredType.autoToken,
        config := { validityCheckUrl := some "https://api.example.com/me" } }
      { cache := [("c1", { credentialId := "c1", token := "tok", obtainedAt := 0 })] }
      = (Except.ok "tok",
         { cache := [("c1", { credentialId := "c1", token := "tok", obtainedAt := 0 })],
           reqs := [probeRequest
             { id := "c1", name := "n", type := CredType.autoToken,
               config := { validityCheckUrl := some "https://api.example.com/me" } }
             "https://api.example.com/me" "tok"] })) ∧
    (ApiClient.getAutoToken (fun _ => FetchResult.success { status := 200 })
      { id := "c2", name := "n", type := CredType.autoToken, config := {} }
      { cache := [("c2", { credentialId := "c2", token := "tok", obtainedAt := 0 })] }
      = (Except.ok "tok",
         { cache := [("c2", { credentialId := "c2", token := "tok", obtainedAt := 0 })] })) :=
  ⟨(getAutoToken_cached_valid_idempotent.1
      (fun _ => FetchResult.success { status := 200 })
      { id := "c1", name := "n", type := CredType.autoToken,
        config := { validityCheckUrl := some "https://api.example.com/me" } }
      { cache := [("c1", { credentialId := "c1", token := "tok", obtainedAt := 0 })] }
      { credentialId := "c1", token := "tok", obtainedAt := 0 }
      "https://api.example.com/me" { status := 200 } { status := 200 }
      rfl (by decide) rfl rfl rfl rfl rfl).2.1,
   getAutoToken_cached_valid_idempotent.2
      (fun _ => FetchResult.success { status := 200 })
      { id := "c2", name := "n", type := CredType.autoToken, config := {} }
      { cache := [("c2", { credentialId := "c2", token := "tok", obtainedAt := 0 })] }
      { credentialId := "c2", token := "tok", obtainedAt := 0 }
      rfl (by decide) rfl⟩

theorem cacheGet_cacheSet (c : List (String × TokenCache)) (id : String)
    (e : TokenCache) : cacheGet (cacheSet c id e) id = some e := by
  unfold cacheGet cacheSet
  induction c with
  | nil =>
    simp only [List.any_nil, Bool.false_eq_true, if_false, List.nil_append,
      List.find?_cons, beq_self_eq_true, Option.map_some']
  | cons p rest ih =>
    obtain ⟨k, v⟩ := p
    by_cases hp : k = id
    · subst hp
      simp only [List.any_cons, beq_self_eq_true, Bool.true_or, if_true,
        List.map_cons, List.find?_cons, Option.map_some']
    · have hpb : (k == id) = false := by
        simp only [beq_eq_false_iff_ne, ne_eq]
        exact hp
      simp only [List.any_cons, hpb, Bool.false_or]
      cases hany : rest.any (fun q => q.1 == id) with
      | true =>
        simp only [hany, if_true] at ih
        simp only [if_true, List.map_cons, hpb, Bool.false_eq_true, if_false,
          List.find?_cons]
        exact ih
      | false =>
        simp only [hany, Bool.false_eq_true, if_false] at ih
        simp only [Bool.false_eq_true, if_false, List.cons_append,
          List.find?_cons, hpb]
        exact ih

theorem cacheGet_cacheDelete (c : List (String × TokenCache)) (id : String) :
    cacheGet (cacheDelete c id) id = none := by
  unfold cacheGet cacheDelete
  induction c with
  | nil => rfl
  | cons p rest ih =>
    obtain ⟨k, v⟩ := p
    by_cases hp : k = id
    · subst hp
      simp only [List.filter_cons, bne_self_eq_false, Bool.false_eq_true, if_false]
      exact ih
    · have hpb : (k == id) = false := by
        simp only [beq_eq_false_iff_ne, ne_eq]
        exact hp
      have hbne : (k != id) = true := by
        simp only [bne, hpb, Bool.not_false]
      simp only [List.filter_cons, hbne, if_true, List.find?_cons, hpb]
      exact ih

/-- C10 (counterexample): on the packages tool-layer call path, a
successful login performed on behalf of an `autoToken` credential by
`performAutoTokenLogin` returns the token but leaves the token cache
empty — the claimed invariant does not hold on every call path. -/
theorem performAutoTokenLogin_does_not_cache :
    (ApiTools.performAutoTokenLogin
      (fun _ => FetchResult.success
        { status := 200,
          json := Except.ok (JSValue.vobj [("token", JSValue.vstr "tok1")]) })
      { id := "c1", name := "n", type := CredType.autoToken,
        config := { loginUrl := some "https://auth.example.com/login",
                    loginBody := some (JSValue.vobj [("u", JSValue.vstr "a")]) } }
      {}).1 = Except.ok "tok1" ∧
    ((ApiTools.performAutoTokenLogin
      (fun _ => FetchResult.success
        { status := 200,
          json := Except.ok (JSValue.vobj [("token", JSValue.vstr "tok1")]) })
      { id := "c1", name := "n", type := CredType.autoToken,
        config := { loginUrl := some "https://auth.example.com/login",
                    loginBody := some (JSValue.vobj [("u", JSValue.vstr "a")]) } }
      {}).2).cache = [] :=
  ⟨rfl, rfl⟩

/-- C10 (amended): in the utils api-client, immediately after any
successful `performLogin` the cache holds `{credentialId, token,
obtainedAt}` for the credential; and in `makeApiCall` a response with an
invalid status evicts the entry before re-authenticating — if the forced
re-login fails, the call errors out and the entry is gone, so the next
attempt must re-authenticate. The packages tool-layer
`performAutoTokenLogin` does not write the cache (see the
counterexample). -/
theorem tokenCache_lifecycle :
    (∀ (env : Env) (cred : Credential) (st : St) (lu : String) (r : Resp)
        (body : JSValue) (tok : String),
      cred.config.loginUrl = some lu →
      env st.reqs.length = FetchResult.success r →
      respOk r = true →
      r.json = Except.ok body →
      getValueByPath body (orDefault cred.config.tokenPath "token")
        = some (JSValue.vstr tok) →
      tok ≠ "" →
      ApiClient.performLogin env cred st =
        (Except.ok tok,
         { cache := cacheSet st.cache cred.id
             { credentialId := cred.id, token := tok,
               obtainedAt := st.reqs.length + 1 },
           reqs := st.reqs ++ [loginRequest cred lu] }) ∧
      cacheGet ((ApiClient.performLogin env cred st).2).cache cred.id =
        some { credentialId := cred.id, token := tok,
               obtainedAt := st.reqs.length + 1 }) ∧
    (∀ (env : Env) (request : ApiCallRequest) (apiDoc : ApiDoc)
        (cred : Credential) (st : St) (url lu : String) (cached : TokenCache)
        (r₁ r₂ : Resp),
      buildUrl apiDoc.baseUrl request.endpointPath request.pathParams
        request.queryParams = Except.ok url →
      cred.type = CredType.autoToken →
      cred.config.validityCheckUrl = none →
      cred.config.loginUrl = some lu →
      cacheGet st.cache cred.id = some cached →
      cached.token ≠ "" →
      env st.reqs.length = FetchResult.success r₁ →
      ApiClient.retryGate cred r₁.status = true →
      env (st.reqs.length + 1) = FetchResult.success r₂ →
      respOk r₂ = false →
      (ApiClient.makeApiCall env request apiDoc (some cred) st).1 =
        Except.error ("Login failed: " ++ natToStr r₂.status ++ " "
          ++ r₂.statusText ++ ". " ++ textOrEmpty r₂) ∧
      cacheGet ((ApiClient.makeApiCall env request apiDoc (some cred) st).2).cache
        cred.id = none) := by
  constructor
  · intro env cred st lu r body tok hlu henv hok hjson hpath htok
    have hmain : ApiClient.performLogin env cred st =
        (Except.ok tok,
         { cache := cacheSet st.cache cred.id
             { credentialId := cred.id, token := tok,
               obtainedAt := st.reqs.length + 1 },
           reqs := st.reqs ++ [loginRequest cred lu] }) := by
      unfold ApiClient.performLogin
      simp only [hlu, issue, henv, hok, Bool.true_eq_false, if_false, hjson,
        hpath, List.length_append, List.length_cons, List.length_nil]
      rw [if_neg htok]
    refine ⟨hmain, ?_⟩
    rw [hmain]
    exact cacheGet_cacheSet _ _ _
  · intro env request apiDoc cred st url lu cached r₁ r₂ hurl htype hvcu hlu
      hc htok henv₁ hgate henv₂ hok₂
    unfold ApiClient.makeApiCall ApiClient.applyCredentials
      ApiClient.getAutoToken ApiClient.checkTokenValidity ApiClient.executeRequest
      ApiClient.performLogin
    simp only [hurl, htype]
    simp only [hc, hvcu]
    rw [if_pos htok]
    simp only [issue, henv₁]
    simp only [hgate, if_true]
    simp only [cacheGet_cacheDelete, hlu, List.length_append, List.length_cons,
      List.length_nil, henv₂, hok₂, eq_self_iff_true, if_true]
    exact ⟨trivial, trivial⟩

/-- C10 witness: a concrete successful login that caches, and a concrete
invalid-status call whose failed re-login leaves the entry evicted. -/
theorem tokenCache_lifecycle_witness :
    (ApiClient.performLogin
      (fun _ => FetchResult.success
        { status := 200,
          json := Except.ok (JSValue.vobj [("token", JSValue.vstr "tok1")]) })
      { id := "c1", name := "n", type := CredType.autoToken,
        config := { loginUrl := some "https://auth.example.com/login" } }
      {}).1 = Except.ok "tok1" ∧
    cacheGet ((ApiClient.performLogin
      (fun _ => FetchResult.success
        { status := 200,
          json := Except.ok (JSValue.vobj [("token", JSValue.vstr "tok1")]) })
      { id := "c1", name := "n", type := CredType.autoToken,
        config := { loginUrl := some "https://auth.example.com/login" } }
      {}).2).cache "c1" =
      some { credentialId := "c1", token := "tok1", obtainedAt := 1 } ∧
    (ApiClient.makeApiCall
      (fun n => if n = 0 then FetchResult.success { status := 401 }
        else FetchResult.success { status := 500, statusText := "ISE" })
      { endpointPath := "/x", method := "GET" }
      { id := "d", baseUrl := "https://api.example.com" }
      (some { id := "c1", name := "n", type := CredType.autoToken,
              config := { loginUrl := some "https://auth.example.com/login",
                          invalidStatusCodes := some [401, 403] } })
      { cache := [("c1", { credentialId := "c1", token := "old", obtainedAt := 0 })] }).1
      = Except.error "Login failed: 500 ISE. " ∧
    cacheGet ((ApiClient.makeApiCall
      (fun n => if n = 0 then FetchResult.success { status := 401 }
        else FetchResult.success { status := 500, statusText := "ISE" })
      { endpointPath := "/x", method := "GET" }
      { id := "d", baseUrl := "https://api.example.com" }
      (some { id := "c1", name := "n", type := CredType.autoToken,
              config := { loginUrl := some "https://auth.example.com/login",
                          invalidStatusCodes := some [401, 403] } })
      { cache := [("c1", { credentialId := "c1", token := "old", obtainedAt := 0 })] }).2).cache
      "c1" = none := by
  have h1 := tokenCache_lifecycle.1
    (fun _ => FetchResult.success
      { status := 200,
        json := Except.ok (JSValue.vobj [("token", JSValue.vstr "tok1")]) })
    { id := "c1", name := "n", type := CredType.autoToken,
      config := { loginUrl := some "https://auth.example.com/login" } }
    {} "https://auth.example.com/login"
    { status := 200,
      json := Except.ok (JSValue.vobj [("token", JSValue.vstr "tok1")]) }
    (JSValue.vobj [("token", JSValue.vstr "tok1")]) "tok1"
    rfl rfl rfl rfl rfl (by decide)
  have h2 := tokenCache_lifecycle.2
    (fun n => if n = 0 then FetchResult.success { status := 401 }
      else FetchResult.success { status := 500, statusText := "ISE" })
    { endpointPath := "/x", method := "GET" }
    { id := "d", baseUrl := "https://api.example.com" }
    { id := "c1", name := "n", type := CredType.autoToken,
      config := { loginUrl := some "https://auth.example.com/login",
                  invalidStatusCodes := some [401, 403] } }
    { cache := [("c1", { credentialId := "c1", token := "old", obtainedAt := 0 })] }
    "https://api.example.com/x" "https://auth.example.com/login"
    { credentialId := "c1", token := "old", obtainedAt := 0 }
    { status := 401 } { status := 500, statusText := "ISE" }
    rfl rfl rfl rfl rfl (by decide) rfl rfl rfl rfl
  refine ⟨?_, ?_, ?_, h2.2⟩
  · rw [h1.1]
  · exact h1.2
  · exact h2.1

/-- C5: whenever the resulting config of an `add_credential` /
`update_credential` request has a `loginUrl` and `skipValidityCheck` is
not set, a synchronous test login decides the operation: a failing login
rejects the whole operation with a `Credential verification failed:`
error (which contains "verification failed") and nothing is persisted;
with `skipValidityCheck` set, the credential is saved with no login
attempt (the process state is untouched). -/
theorem credential_verification_gate :
    (∀ (env : Env) (storage : Storage) (params : Scout.AddCredentialParams)
        (now : String) (st : St) (config : CredentialConfig) (e : String) (st₁ : St),
      storage.getCredential params.id = none →
      Scout.buildConfig params = Except.ok config →
      optTruthy config.loginUrl = true →
      params.skipValidityCheck = false →
      Scout.testCredentialLogin env
        { id := params.id, name := params.name, type := params.type,
          apiDocId := params.apiDocId, config := config,
          createdAt := now, updatedAt := now } st = (Except.error e, st₁) →
      Scout.addCredential env storage params now st =
        ({ success := false,
           error := some ("Credential verification failed: " ++ e
             ++ ". Use skipValidityCheck=true to force save.") }, storage, st₁)) ∧
    (∀ (env : Env) (storage : Storage) (params : Scout.AddCredentialParams)
        (now : String) (st : St) (config : CredentialConfig),
      storage.getCredential params.id = none →
      Scout.buildConfig params = Except.ok config →
      params.skipValidityCheck = true →
      Scout.addCredential env storage params now st =
        ({ success := true,
           credential := some
             { id := params.id, name := params.name, type := params.type,
               apiDocId := params.apiDocId, createdAt := some now } },
         { storage with credentials := storage.credentials ++
             [{ id := params.id, name := params.name, type := params.type,
                apiDocId := params.apiDocId, config := config,
                createdAt := now, updatedAt := now }] }, st)) ∧
    (∀ (env : Env) (storage : Storage) (params : Scout.UpdateCredentialParams)
        (now : String) (st : St) (existing : Credential)
        (newConfig : CredentialConfig) (e : String) (st₁ : St),
      storage.getCredential params.id = some existing →
      Scout.mergeConfig existing.config params = Except.ok newConfig →
      optTruthy newConfig.loginUrl = true →
      params.skipValidityCheck ≠ some true →
      Scout.testCredentialLogin env
        { existing with
            name := params.name.getD existing.name,
            config := newConfig } st = (Except.error e, st₁) →
      Scout.updateCredential env storage params now st =
        ({ success := false,
           error := some ("Credential verification failed: " ++ e
             ++ ". Use skipValidityCheck=true to force save.") }, storage, st₁)) ∧
    (∀ (env : Env) (storage : Storage) (params : Scout.UpdateCredentialParams)
        (now : String) (st : St) (existing : Credential)
        (newConfig : CredentialConfig),
      storage.getCredential params.id = some existing →
      Scout.mergeConfig existing.config params = Except.ok newConfig →
      params.skipValidityCheck = some true →
      Scout.updateCredential env storage params now st =
        ({ success := true,
           credential := some
             { id := existing.id, name := params.name.getD existing.name,
               type := existing.type, apiDocId := existing.apiDocId,
               updatedAt := some now } },
         storage.replaceCredential existing.id
           { existing with
               name := params.name.getD existing.name,
               config := newConfig, updatedAt := now }, st)) := by
  refine ⟨?_, ?_, ?_, ?_⟩
  · intro env storage params now st config e st₁ hfresh hconfig hl hskip hlogin
    unfold Scout.addCredential
    simp only [hfresh, hconfig]
    rw [if_pos ⟨hl, hskip⟩]
    simp only [hlogin]
  · intro env storage params now st config hfresh hconfig hskip
    unfold Scout.addCredential
    simp only [hfresh, hconfig]
    rw [if_neg (by simp [hskip])]
    unfold Scout.saveNewCredential Storage.addCredential
    simp only [hfresh]
  · intro env storage params now st existing newConfig e st₁ hfound hmerge hl
      hskip hlogin
    unfold Scout.updateCredential
    simp only [hfound, hmerge]
    rw [if_pos ⟨hl, hskip⟩]
    have htouch : Scout.touchedLoginConfig newConfig = true := by
      unfold Scout.touchedLoginConfig
      rw [hl]
      simp
    rw [if_pos htouch]
    simp only [hlogin]
  · intro env storage params now st existing newConfig hfound hmerge hskip
    unfold Scout.updateCredential
    simp only [hfound, hmerge]
    rw [if_neg (by simp [hskip])]
    unfold Scout.saveUpdatedCredential
    rfl

/-- C5 witness: concrete add/update requests against a login endpoint
answering 500, with and without `skipValidityCheck`. -/
theorem credential_verification_gate_witness :
    (Scout.addCredential (fun _ => FetchResult.success { status := 500, statusText := "ISE" })
      {}
      { id := "a1", name := "A", type := CredType.bearer,
        loginUrl := some "https://auth.example.com/login",
        loginBody := some (JSValue.vobj [("u", JSValue.vstr "x")]) } "T" {} =
      ({ success := false,
         error := some ("Credential verification failed: Login failed: 500 ISE. "
           ++ ". Use skipValidityCheck=true to force save.") }, {},
       { reqs := [loginRequest
           { id := "a1", name := "A", type := CredType.bearer,
             config :=
               { loginUrl := some "https://auth.example.com/login",
                 loginMethod := some "POST",
                 loginBody := some (JSValue.vobj [("u", JSValue.vstr "x")]),
                 tokenPath := some "token", tokenHeader := some "Authorization",
                 tokenPrefix := some "Bearer ",
                 invalidStatusCodes := some [401, 403] },
             createdAt := "T", updatedAt := "T" }
           "https://auth.example.com/login"] })) ∧
    ((Scout.addCredential (fun _ => FetchResult.success { status := 500, statusText := "ISE" })
      {}
      { id := "a2", name := "A", type := CredType.bearer,
        loginUrl := some "https://auth.example.com/login",
        loginBody := some (JSValue.vobj [("u", JSValue.vstr "x")]),
        skipValidityCheck := true } "T" {}).1.success = true ∧
     (Scout.addCredential (fun _ => FetchResult.success { status := 500, statusText := "ISE" })
      {}
      { id := "a2", name := "A", type := CredType.bearer,
        loginUrl := some "https://auth.example.com/login",
        loginBody := some (JSValue.vobj [("u", JSValue.vstr "x")]),
        skipValidityCheck := true } "T" {}).2.2 = {}) ∧
    ((Scout.updateCredential (fun _ => FetchResult.success { status := 500, statusText := "ISE" })
      { credentials := [
          { id := "u1", name := "U", type := CredType.bearer,
            config :=
              { loginUrl := some "https://auth.example.com/login",
                loginMethod := some "POST",
                loginBody := some (JSValue.vobj [("u", JSValue.vstr "x")]),
                tokenPath := some "token", tokenHeader := some "Authorization",
                tokenPrefix := some "Bearer ",
                invalidStatusCodes := some [401, 403] },
            createdAt := "T0", updatedAt := "T0" }] }
      { id := "u1" } "T1" {}).1 =
      { success := false,
        error := some ("Credential verification failed: Login failed: 500 ISE. "
          ++ ". Use skipValidityCheck=true to force save.") }) ∧
    ((Scout.updateCredential (fun _ => FetchResult.success { status := 500, statusText := "ISE" })
      { credentials := [
          { id := "u1", name := "U", type := CredType.bearer,
            config :=
              { loginUrl := some "https://auth.example.com/login",
                loginMethod := some "POST",
                loginBody := some (JSValue.vobj [("u", JSValue.vstr "x")]),
                tokenPath := some "token", tokenHeader := some "Authorization",
                tokenPrefix := some "Bearer ",
                invalidStatusCodes := some [401, 403] },
            createdAt := "T0", updatedAt := "T0" }] }
      { id := "u1", skipValidityCheck := some true } "T1" {}).1.success = true ∧
     (Scout.updateCredential (fun _ => FetchResult.success { status := 500, statusText := "ISE" })
      { credentials := [
          { id := "u1", name := "U", type := CredType.bearer,
            config :=
              { loginUrl := some "https://auth.example.com/login",
                loginMethod := some "POST",
                loginBody := some (JSValue.vobj [("u", JSValue.vstr "x")]),
                tokenPath := some "token", tokenHeader := some "Authorization",
                tokenPrefix := some "Bearer ",
                invalidStatusCodes := some [401, 403] },
            createdAt := "T0", updatedAt := "T0" }] }
      { id := "u1", skipValidityCheck := some true } "T1" {}).2.2 = {}) := by
  refine ⟨?_, ?_, ?_, ?_⟩
  · exact credential_verification_gate.1
      (fun _ => FetchResult.success { status := 500, statusText := "ISE" }) {}
      { id := "a1", name := "A", type := CredType.bearer,
        loginUrl := some "https://auth.example.com/login",
        loginBody := some (JSValue.vobj [("u", JSValue.vstr "x")]) } "T" {}
      { loginUrl := some "https://auth.example.com/login",
        loginMethod := some "POST",
        loginBody := some (JSValue.vobj [("u", JSValue.vstr "x")]),
        tokenPath := some "token", tokenHeader := some "Authorization",
        tokenPrefix := some "Bearer ",
        invalidStatusCodes := some [401, 403] }
      "Login failed: 500 ISE. " _ rfl rfl rfl rfl rfl
  · have h := credential_verification_gate.2.1
      (fun _ => FetchResult.success { status := 500, statusText := "ISE" }) {}
      { id := "a2", name := "A", type := CredType.bearer,
        loginUrl := some "https://auth.example.com/login",
        loginBody := some (JSValue.vobj [("u", JSValue.vstr "x")]),
        skipValidityCheck := true } "T" {}
      { loginUrl := some "https://auth.example.com/login",
        loginMethod := some "POST",
        loginBody := some (JSValue.vobj [("u", JSValue.vstr "x")]),
        tokenPath := some "token", tokenHeader := some "Authorization",
        tokenPrefix := some "Bearer ",
        invalidStatusCodes := some [401, 403] }
      rfl rfl rfl
    rw [h]
    exact ⟨rfl, rfl⟩
  · have h := credential_verification_gate.2.2.1
      (fun _ => FetchResult.success { status := 500, statusText := "ISE" })
      { credentials := [
          { id := "u1", name := "U", type := CredType.bearer,
            config :=
              { loginUrl := some "https://auth.example.com/login",
                loginMethod := some "POST",
                loginBody := some (JSValue.vobj [("u", JSValue.vstr "x")]),
                tokenPath := some "token", tokenHeader := some "Authorization",
                tokenPrefix := some "Bearer ",
                invalidStatusCodes := some [401, 403] },
            createdAt := "T0", updatedAt := "T0" }] }
      { id := "u1" } "T1" {}
      { id := "u1", name := "U", type := CredType.bearer,
        config :=
          { loginUrl := some "https://auth.example.com/login",
            loginMethod := some "POST",
            loginBody := some (JSValue.vobj [("u", JSValue.vstr "x")]),
            tokenPath := some "token", tokenHeader := some "Authorization",
            tokenPrefix := some "Bearer ",
            invalidStatusCodes := some [401, 403] },
        createdAt := "T0", updatedAt := "T0" }
      { loginUrl := some "https://auth.example.com/login",
        loginMethod := some "POST",
        loginBody := some (JSValue.vobj [("u", JSValue.vstr "x")]),
        tokenPath := some "token", tokenHeader := some "Authorization",
        tokenPrefix := some "Bearer ",
        invalidStatusCodes := some [401, 403] }
      "Login failed: 500 ISE. " _ rfl rfl rfl (by simp) rfl
    rw [h]
    rfl
  · have h := credential_verification_gate.2.2.2
      (fun _ => FetchResult.success { status := 500, statusText := "ISE" })
      { credentials := [
          { id := "u1", name := "U", type := CredType.bearer,
            config :=
              { loginUrl := some "https://auth.example.com/login",
                loginMethod := some "POST",
                loginBody := some (JSValue.vobj [("u", JSValue.vstr "x")]),
                tokenPath := some "token", tokenHeader := some "Authorization",
                tokenPrefix := some "Bearer ",
                invalidStatusCodes := some [401, 403] },
            createdAt := "T0", updatedAt := "T0" }] }
      { id := "u1", skipValidityCheck := some true } "T1" {}
      { id := "u1", name := "U", type := CredType.bearer,
        config :=
          { loginUrl := some "https://auth.example.com/login",
            loginMethod := some "POST",
            loginBody := some (JSValue.vobj [("u", JSValue.vstr "x")]),
            tokenPath := some "token", tokenHeader := some "Authorization",
            tokenPrefix := some "Bearer ",
            invalidStatusCodes := some [401, 403] },
        createdAt := "T0", updatedAt := "T0" }
      { loginUrl := some "https://auth.example.com/login",
        loginMethod := some "POST",
        loginBody := some (JSValue.vobj [("u", JSValue.vstr "x")]),
        tokenPath := some "token", tokenHeader := some "Authorization",
        tokenPrefix := some "Bearer ",
        invalidStatusCodes := some [401, 403] }
      rfl rfl rfl
    rw [h]
    exact ⟨rfl, rfl⟩

/-- C4: for a dynamic-bearer credential with a configured `refreshUrl` and
a cached entry carrying a refresh token, when the cached access token
fails its validity probe, `obtainToken` issues the refresh request (to
`refreshUrl`) directly after the probe — before any login; if the refresh
succeeds the new token is cached and returned with no login at all, and
if the refresh fails the flow falls back to a full login whose success
decides the call, so the refresh failure is not fatal. -/
theorem obtainToken_refresh_first :
    (∀ (env : Env) (cred : Credential) (st : St) (cached : TokenCache)
        (rt ru vu : String) (r₀ r₁ : Resp) (body₁ : JSValue) (tok rt₂ : String),
      cacheGet st.cache cred.id = some cached →
      cached.refreshToken = some rt →
      cred.config.refreshUrl = some ru →
      cred.config.validityCheckUrl = some vu →
      env st.reqs.length = FetchResult.success r₀ →
      (invalidCodes cred.config).contains r₀.status = true →
      env (st.reqs.length + 1) = FetchResult.success r₁ →
      respOk r₁ = true →
      r₁.json = Except.ok body₁ →
      getValueByPath body₁ (orDefault cred.config.tokenPath "token")
        = some (JSValue.vstr tok) →
      tok ≠ "" →
      getValueByPath body₁ (orDefault cred.config.refreshTokenPath "refreshToken")
        = some (JSValue.vstr rt₂) →
      rt₂ ≠ "" →
      Scout.obtainToken env cred st =
        (Except.ok tok,
         { cache := cacheSet (cacheDelete st.cache cred.id) cred.id
             { credentialId := cred.id, token := tok, refreshToken := some rt₂,
               obtainedAt := st.reqs.length + 2 },
           reqs := st.reqs ++ [probeRequest cred vu cached.token,
             refreshRequest cred ru rt] })) ∧
    (∀ (env : Env) (cred : Credential) (st : St) (cached : TokenCache)
        (rt ru vu lu : String) (r₀ r₁ r₂ : Resp) (body₂ : JSValue) (tok₂ : String),
      cacheGet st.cache cred.id = some cached →
      cached.refreshToken = some rt →
      cred.config.refreshUrl = some ru →
      cred.config.validityCheckUrl = some vu →
      cred.config.loginUrl = some lu →
      env st.reqs.length = FetchResult.success r₀ →
      (invalidCodes cred.config).contains r₀.status = true →
      env (st.reqs.length + 1) = FetchResult.success r₁ →
      respOk r₁ = false →
      env (st.reqs.length + 2) = FetchResult.success r₂ →
      respOk r₂ = true →
      r₂.json = Except.ok body₂ →
      getValueByPath body₂ (orDefault cred.config.tokenPath "token")
        = some (JSValue.vstr tok₂) →
      tok₂ ≠ "" →
      Scout.obtainToken env cred st =
        (Except.ok tok₂,
         { cache := cacheSet (cacheDelete st.cache cred.id) cred.id
             { credentialId := cred.id, token := tok₂,
               obtainedAt := st.reqs.length + 3 },
           reqs := st.reqs ++ [probeRequest cred vu cached.token,
             refreshRequest cred ru rt, loginRequest cred lu] })) := by
  constructor
  · intro env cred st cached rt ru vu r₀ r₁ body₁ tok rt₂ hc hrt hru hvu henv₀
      hinv henv₁ hok₁ hjson₁ htok₁ hne₁ hrt₂ hne₂
    unfold Scout.obtainToken ApiClient.checkTokenValidity Scout.refreshOp
    simp only [hc, hvu, issue, henv₀, hinv, Bool.not_true, hrt, hru,
      List.length_append, List.length_cons, List.length_nil, henv₁, hok₁,
      hjson₁, htok₁, hrt₂, List.append_assoc, List.cons_append, List.nil_append]
    rw [if_neg hne₁, if_neg hne₂]
    simp
  · intro env cred st cached rt ru vu lu r₀ r₁ r₂ body₂ tok₂ hc hrt hru hvu hlu
      henv₀ hinv henv₁ hok₁ henv₂ hok₂ hjson₂ htok₂ hne₂
    unfold Scout.obtainToken ApiClient.checkTokenValidity Scout.refreshOp
      ApiClient.performLogin
    simp only [hc, hvu, issue, henv₀, hinv, Bool.not_true, hrt, hru, hlu,
      List.length_append, List.length_cons, List.length_nil, henv₁, hok₁,
      henv₂, hok₂, hjson₂, htok₂, List.append_assoc, List.cons_append,
      List.nil_append]
    simp only [if_true]
    simp only [hlu, issue, List.length_append, List.length_cons,
      List.length_nil, henv₂, hok₂, Bool.true_eq_false, if_false, hjson₂,
      htok₂, List.append_assoc, List.cons_append, List.nil_append]
    rw [if_neg hne₂]

/-- C4 witness: a concrete invalid cached token whose refresh succeeds,
and one whose refresh fails but whose fallback login succeeds. -/
theorem obtainToken_refresh_first_witness :
    (Scout.obtainToken
      (fun n => if n = 0 then FetchResult.success { status := 401 }
        else FetchResult.success
          { status := 200,
            json := Except.ok (JSValue.vobj
              [("token", JSValue.vstr "t1"), ("refreshToken", JSValue.vstr "r1")]) })
      { id := "c1", name := "n", type := CredType.bearer,
        config := { loginUrl := some "https://auth.example.com/login",
                    validityCheckUrl := some "https://api.example.com/me",
                    refreshUrl := some "https://auth.example.com/refresh" } }
      { cache := [("c1",
          { credentialId := "c1", token := "old",
            refreshToken := some "r0", obtainedAt := 0 })] } =
      (Except.ok "t1",
       { cache := [("c1",
           { credentialId := "c1", token := "t1",
             refreshToken := some "r1", obtainedAt := 2 })],
         reqs := [probeRequest
             { id := "c1", name := "n", type := CredType.bearer,
               config := { loginUrl := some "https://auth.example.com/login",
                           validityCheckUrl := some "https://api.example.com/me",
                           refreshUrl := some "https://auth.example.com/refresh" } }
             "https://api.example.com/me" "old",
           refreshRequest
             { id := "c1", name := "n", type := CredType.bearer,
               config := { loginUrl := some "https://auth.example.com/login",
                           validityCheckUrl := some "https://api.example.com/me",
                           refreshUrl := some "https://auth.example.com/refresh" } }
             "https://auth.example.com/refresh" "r0"] })) ∧
    ((Scout.obtainToken
      (fun n => if n = 0 then FetchResult.success { status := 401 }
        else if n = 1 then FetchResult.success { status := 500 }
        else FetchResult.success
          { status := 200,
            json := Except.ok (JSValue.vobj [("token", JSValue.vstr "t2")]) })
      { id := "c1", name := "n", type := CredType.bearer,
        config := { loginUrl := some "https://auth.example.com/login",
                    validityCheckUrl := some "https://api.example.com/me",
                    refreshUrl := some "https://auth.example.com/refresh" } }
      { cache := [("c1",
          { credentialId := "c1", token := "old",
            refreshToken := some "r0", obtainedAt := 0 })] }).1 = Except.ok "t2") := by
  constructor
  · exact obtainToken_refresh_first.1
      (fun n => if n = 0 then FetchResult.success { status := 401 }
        else FetchResult.success
          { status := 200,
            json := Except.ok (JSValue.vobj
              [("token", JSValue.vstr "t1"), ("refreshToken", JSValue.vstr "r1")]) })
      { id := "c1", name := "n", type := CredType.bearer,
        config := { loginUrl := some "https://auth.example.com/login",
                    validityCheckUrl := some "https://api.example.com/me",
                    refreshUrl := some "https://auth.example.com/refresh" } }
      { cache := [("c1",
          { credentialId := "c1", token := "old",
            refreshToken := some "r0", obtainedAt := 0 })] }
      { credentialId := "c1", token := "old", refreshToken := some "r0",
        obtainedAt := 0 }
      "r0" "https://auth.example.com/refresh" "https://api.example.com/me"
      { status := 401 }
      { status := 200,
        json := Except.ok (JSValue.vobj
          [("token", JSValue.vstr "t1"), ("refreshToken", JSValue.vstr "r1")]) }
      (JSValue.vobj [("token", JSValue.vstr "t1"), ("refreshToken", JSValue.vstr "r1")])
      "t1" "r1"
      rfl rfl rfl rfl rfl rfl rfl rfl rfl rfl (by decide) rfl (by decide)
  · have h := obtainToken_refresh_first.2
      (fun n => if n = 0 then FetchResult.success { status := 401 }
        else if n = 1 then FetchResult.success { status := 500 }
        else FetchResult.success
          { status := 200,
            json := Except.ok (JSValue.vobj [("token", JSValue.vstr "t2")]) })
      { id := "c1", name := "n", type := CredType.bearer,
        config := { loginUrl := some "https://auth.example.com/login",
                    validityCheckUrl := some "https://api.example.com/me",
                    refreshUrl := some "https://auth.example.com/refresh" } }
      { cache := [("c1",
          { credentialId := "c1", token := "old",
            refreshToken := some "r0", obtainedAt := 0 })] }
      { credentialId := "c1", token := "old", refreshToken := some "r0",
        obtainedAt := 0 }
      "r0" "https://auth.example.com/refresh" "https://api.example.com/me"
      "https://auth.example.com/login"
      { status := 401 } { status := 500 }
      { status := 200,
        json := Except.ok (JSValue.vobj [("token", JSValue.vstr "t2")]) }
      (JSValue.vobj [("token", JSValue.vstr "t2")]) "t2"
      rfl rfl rfl rfl rfl rfl rfl rfl rfl rfl rfl rfl rfl (by decide)
    rw [h]

/-- The state grew only by requests that are not target requests (auth
traffic only). -/
def extendsByNonTargets (st st' : St) : Prop :=
  ∃ l, st'.reqs = st.reqs ++ l ∧ countKind ReqKind.target l = 0

theorem countKind_append (k : ReqKind) (l₁ l₂ : List HttpRequest) :
    countKind k (l₁ ++ l₂) = countKind k l₁ + countKind k l₂ := by
  unfold countKind
  rw [List.filter_append, List.length_append]

theorem ebnt_refl (st : St) : extendsByNonTargets st st :=
  ⟨[], by simp, rfl⟩

theorem ebnt_trans {a b c : St} (h₁ : extendsByNonTargets a b)
    (h₂ : extendsByNonTargets b c) : extendsByNonTargets a c := by
  obtain ⟨l₁, he₁, hc₁⟩ := h₁
  obtain ⟨l₂, he₂, hc₂⟩ := h₂
  exact ⟨l₁ ++ l₂, by rw [he₂, he₁, List.append_assoc],
    by rw [countKind_append, hc₁, hc₂]⟩

theorem ebnt_cache {st : St} (c : List (String × TokenCache)) :
    extendsByNonTargets st { st with cache := c } :=
  ⟨[], by simp, rfl⟩

theorem ebnt_count {st st' : St} (h : extendsByNonTargets st st') :
    countKind ReqKind.target st'.reqs = countKind ReqKind.target st.reqs := by
  obtain ⟨l, he, hc⟩ := h
  rw [he, countKind_append, hc]
  rfl

theorem performLogin_noTargets (env : Env) (cred : Credential) (st : St) :
    extendsByNonTargets st (ApiClient.performLogin env cred st).2 := by
  unfold ApiClient.performLogin
  dsimp only
  split
  · exact ebnt_refl _
  next lu heq =>
    simp only [issue]
    cases henv : env st.reqs.length with
    | netErr msg => exact ⟨[loginRequest cred lu], rfl, rfl⟩
    | success r =>
      dsimp only
      repeat' split
      all_goals exact ⟨[loginRequest cred lu], rfl, rfl⟩

theorem checkTokenValidity_noTargets (env : Env) (cred : Credential)
    (token : String) (st : St) :
    extendsByNonTargets st (ApiClient.checkTokenValidity env cred token st).2 := by
  unfold ApiClient.checkTokenValidity
  dsimp only
  split
  · exact ebnt_refl _
  next vu heq =>
    simp only [issue]
    cases henv : env st.reqs.length with
    | netErr msg => exact ⟨[probeRequest cred vu token], rfl, rfl⟩
    | success r => exact ⟨[probeRequest cred vu token], rfl, rfl⟩

theorem getAutoToken_noTargets (env : Env) (cred : Credential) (st : St) :
    extendsByNonTargets st (ApiClient.getAutoToken env cred st).2 := by
  unfold ApiClient.getAutoToken
  split
  next cached heq =>
    split
    · split
      next st₁ heq₂ =>
        have h := checkTokenValidity_noTargets env cred cached.token st
        rw [heq₂] at h
        exact h
      next st₁ heq₂ =>
        have h := checkTokenValidity_noTargets env cred cached.token st
        rw [heq₂] at h
        exact ebnt_trans h (ebnt_trans (ebnt_cache _)
          (performLogin_noTargets env cred _))
    · exact performLogin_noTargets env cred st
  next heq => exact performLogin_noTargets env cred st

theorem applyCredentials_noTargets (env : Env) (headers : Headers)
    (cred : Credential) (st : St) :
    extendsByNonTargets st (ApiClient.applyCredentials env headers cred st).2 := by
  unfold ApiClient.applyCredentials
  dsimp only
  split
  · repeat' split
    all_goals exact ebnt_refl _
  · repeat' split
    all_goals exact ebnt_refl _
  · repeat' split
    all_goals exact ebnt_refl _
  · repeat' split
    all_goals exact ebnt_refl _
  · exact ebnt_refl _
  · exact ebnt_refl _
  · split
    next st₁ heq =>
      have h := getAutoToken_noTargets env cred st
      rw [heq] at h
      exact h
    next st₁ heq =>
      have h := getAutoToken_noTargets env cred st
      rw [heq] at h
      exact h

theorem performAutoTokenLogin_noTargets (env : Env) (cred : Credential) (st : St) :
    extendsByNonTargets st (ApiTools.performAutoTokenLogin env cred st).2 := by
  unfold ApiTools.performAutoTokenLogin
  dsimp only
  split
  · exact ebnt_refl _
  next lu heq =>
    simp only [issue]
    cases henv : env st.reqs.length with
    | netErr msg => exact ⟨[loginRequest cred lu], rfl, rfl⟩
    | success r =>
      dsimp only
      repeat' split
      all_goals exact ⟨[loginRequest cred lu], rfl, rfl⟩

theorem applyCredentialsToHeaders_noTargets (env : Env) (headers : Headers)
    (cred : Credential) (st : St) :
    extendsByNonTargets st (ApiTools.applyCredentialsToHeaders env headers cred st).2 := by
  unfold ApiTools.applyCredentialsToHeaders
  dsimp only
  split
  · split
    next t heq =>
      split
      · exact ebnt_refl _
      · split
        next st₁ heq₂ =>
          have h := performAutoTokenLogin_noTargets env cred st
          rw [heq₂] at h
          exact h
        next st₁ heq₂ =>
          have h := performAutoTokenLogin_noTargets env cred st
          rw [heq₂] at h
          exact h
    next heq =>
      split
      next st₁ heq₂ =>
        have h := performAutoTokenLogin_noTargets env cred st
        rw [heq₂] at h
        exact h
      next st₁ heq₂ =>
        have h := performAutoTokenLogin_noTargets env cred st
        rw [heq₂] at h
        exact h
  · exact applyCredentials_noTargets env headers cred st

theorem executeRequest_oneTarget (env : Env) (url method : String)
    (headers : Headers) (body : Option JSValue) (st : St) :
    ∃ l, ((ApiClient.executeRequest env url method headers body st).2).reqs
        = st.reqs ++ l ∧ countKind ReqKind.target l = 1 := by
  unfold ApiClient.executeRequest
  simp only [issue]
  cases henv : env st.reqs.length with
  | netErr msg => exact ⟨[targetRequest url (upperStr method) headers body], rfl, rfl⟩
  | success r => exact ⟨[targetRequest url (upperStr method) headers body], rfl, rfl⟩

theorem executeRawRequest_oneTarget (env : Env) (url method : String)
    (headers : Headers) (body : Option JSValue) (st : St) :
    ∃ l, ((ApiTools.executeRawRequest env url method headers body st).2).reqs
        = st.reqs ++ l ∧ countKind ReqKind.target l = 1 := by
  unfold ApiTools.executeRawRequest
  simp only [issue]
  cases henv : env st.reqs.length with
  | netErr msg => exact ⟨[targetRequest url method headers body], rfl, rfl⟩
  | success r => exact ⟨[targetRequest url method headers body], rfl, rfl⟩

theorem executeRequest_count (env : Env) (url method : String)
    (headers : Headers) (body : Option JSValue) (st : St) :
    countKind ReqKind.target
      ((ApiClient.executeRequest env url method headers body st).2).reqs
      = countKind ReqKind.target st.reqs + 1 := by
  obtain ⟨l, he, hc⟩ := executeRequest_oneTarget env url method headers body st
  rw [he, countKind_append, hc]

theorem executeRawRequest_count (env : Env) (url method : String)
    (headers : Headers) (body : Option JSValue) (st : St) :
    countKind ReqKind.target
      ((ApiTools.executeRawRequest env url method headers body st).2).reqs
      = countKind ReqKind.target st.reqs + 1 := by
  obtain ⟨l, he, hc⟩ := executeRawRequest_oneTarget env url method headers body st
  rw [he, countKind_append, hc]

theorem makeApiCall_target_bound (env : Env) (request : ApiCallRequest)
    (apiDoc : ApiDoc) (credential : Option Credential) (st : St) :
    countKind ReqKind.target
      ((ApiClient.makeApiCall env request apiDoc credential st).2).reqs
      ≤ countKind ReqKind.target st.reqs + 2 := by
  unfold ApiClient.makeApiCall
  dsimp only
  split
  · exact Nat.le_add_right _ _
  next url hurl =>
    cases credential with
    | none =>
      dsimp only
      split
      next e st₂ heq =>
        have h := executeRequest_count env url request.method
          (hmergeList [("Content-Type", "application/json"), ("Accept", "application/json")]
            (request.headers.getD [])) request.body st
        rw [heq] at h
        dsimp only at h ⊢
        omega
      next response st₂ heq =>
        have h := executeRequest_count env url request.method
          (hmergeList [("Content-Type", "application/json"), ("Accept", "application/json")]
            (request.headers.getD [])) request.body st
        rw [heq] at h
        dsimp only at h ⊢
        omega
    | some cred =>
      dsimp only
      split
      next e st₁ heq₁ =>
        have h₁ := applyCredentials_noTargets env
          (hmergeList [("Content-Type", "application/json"), ("Accept", "application/json")]
            (request.headers.getD [])) cred st
        rw [heq₁] at h₁
        have hc₁ := ebnt_count h₁
        dsimp only at hc₁ ⊢
        omega
      next hdrs st₁ heq₁ =>
        have h₁ := applyCredentials_noTargets env
          (hmergeList [("Content-Type", "application/json"), ("Accept", "application/json")]
            (request.headers.getD [])) cred st
        rw [heq₁] at h₁
        have hc₁ := ebnt_count h₁
        dsimp only at hc₁
        split
        next e st₂ heq₂ =>
          have h₂ := executeRequest_count env url request.method hdrs request.body st₁
          rw [heq₂] at h₂
          dsimp only at h₂ ⊢
          omega
        next response st₂ heq₂ =>
          have h₂ := executeRequest_count env url request.method hdrs request.body st₁
          rw [heq₂] at h₂
          dsimp only at h₂
          split
          · split
            next e st₄ heq₃ =>
              have h₃ := applyCredentials_noTargets env
                (hmergeList [("Content-Type", "application/json"), ("Accept", "application/json")]
                  (request.headers.getD [])) cred
                { st₂ with cache := cacheDelete st₂.cache cred.id }
              rw [heq₃] at h₃
              have hc₃ := ebnt_count h₃
              dsimp only at hc₃ ⊢
              omega
            next hdrs₂ st₄ heq₃ =>
              have h₃ := applyCredentials_noTargets env
                (hmergeList [("Content-Type", "application/json"), ("Accept", "application/json")]
                  (request.headers.getD [])) cred
                { st₂ with cache := cacheDelete st₂.cache cred.id }
              rw [heq₃] at h₃
              have hc₃ := ebnt_count h₃
              have h₄ := executeRequest_count env url request.method hdrs₂ request.body st₄
              dsimp only at hc₃ h₄ ⊢
              omega
          · dsimp only
            omega

theorem callRawApiSend_target_bound (env : Env) (params : RawParams)
    (credential : Option Credential) (st : St) :
    countKind ReqKind.target
      ((ApiTools.callRawApiSend env params credential st).2).reqs
      ≤ countKind ReqKind.target st.reqs + 2 := by
  unfold ApiTools.callRawApiSend
  dsimp only
  cases credential with
  | none =>
    dsimp only
    split
    next e st₂ heq =>
      have h := executeRawRequest_count env params.url params.method
        (hmergeList [("Content-Type", "application/json"), ("Accept", "application/json")]
          (params.headers.getD [])) params.body st
      rw [heq] at h
      dsimp only at h ⊢
      omega
    next response st₂ heq =>
      have h := executeRawRequest_count env params.url params.method
        (hmergeList [("Content-Type", "application/json"), ("Accept", "application/json")]
          (params.headers.getD [])) params.body st
      rw [heq] at h
      dsimp only at h ⊢
      omega
  | some cred =>
    dsimp only
    split
    next e st₁ heq₁ =>
      have h₁ := applyCredentialsToHeaders_noTargets env
        (hmergeList [("Content-Type", "application/json"), ("Accept", "application/json")]
          (params.headers.getD [])) cred st
      rw [heq₁] at h₁
      have hc₁ := ebnt_count h₁
      dsimp only at hc₁ ⊢
      omega
    next hdrs st₁ heq₁ =>
      have h₁ := applyCredentialsToHeaders_noTargets env
        (hmergeList [("Content-Type", "application/json"), ("Accept", "application/json")]
          (params.headers.getD [])) cred st
      rw [heq₁] at h₁
      have hc₁ := ebnt_count h₁
      dsimp only at hc₁
      split
      next e st₂ heq₂ =>
        have h₂ := executeRawRequest_count env params.url params.method hdrs params.body st₁
        rw [heq₂] at h₂
        dsimp only at h₂ ⊢
        omega
      next response st₂ heq₂ =>
        have h₂ := executeRawRequest_count env params.url params.method hdrs params.body st₁
        rw [heq₂] at h₂
        dsimp only at h₂
        split
        · split
          next e st₄ heq₃ =>
            have h₃ := applyCredentialsToHeaders_noTargets env
              (hmergeList [("Content-Type", "application/json"), ("Accept", "application/json")]
                (params.headers.getD [])) cred
              { st₂ with cache := cacheDelete st₂.cache cred.id }
            rw [heq₃] at h₃
            have hc₃ := ebnt_count h₃
            dsimp only at hc₃ ⊢
            omega
          next hdrs₂ st₄ heq₃ =>
            have h₃ := applyCredentialsToHeaders_noTargets env
              (hmergeList [("Content-Type", "application/json"), ("Accept", "application/json")]
                (params.headers.getD [])) cred
              { st₂ with cache := cacheDelete st₂.cache cred.id }
            rw [heq₃] at h₃
            have hc₃ := ebnt_count h₃
            split
            next e st₅ heq₄ =>
              have h₄ := executeRawRequest_count env params.url params.method hdrs₂ params.body st₄
              rw [heq₄] at h₄
              dsimp only at hc₃ h₄ ⊢
              omega
            next response₂ st₅ heq₄ =>
              have h₄ := executeRawRequest_count env params.url params.method hdrs₂ params.body st₄
              rw [heq₄] at h₄
              dsimp only at hc₃ h₄ ⊢
              omega
        · dsimp only
          omega

theorem callRawApi_target_bound (env : Env) (storage : Storage)
    (params : RawParams) (st : St) :
    countKind ReqKind.target
      ((ApiTools.callRawApi env storage params st).2).reqs
      ≤ countKind ReqKind.target st.reqs + 2 := by
  have hinner : countKind ReqKind.target
      ((ApiTools.callRawApiInner env storage params st).2).reqs
      ≤ countKind ReqKind.target st.reqs + 2 := by
    unfold ApiTools.callRawApiInner
    dsimp only
    split
    · exact Nat.le_add_right _ _
    · split
      · split
        · exact Nat.le_add_right _ _
        · exact callRawApiSend_target_bound env params _ st
      · exact callRawApiSend_target_bound env params _ st
  unfold ApiTools.callRawApi
  split
  next r st₁ heq =>
    rw [heq] at hinner
    exact hinner
  next e st₁ heq =>
    rw [heq] at hinner
    exact hinner

/-- C1: the call flows never issue a third target request — for every
environment and state, `makeApiCall` and the tool-layer `callRawApi`
issue at most 2 target-kind requests (the auth calls are tagged
separately); and in the canonical run (empty-cache `autoToken`
credential, successful logins, first target status in
`invalidStatusCodes`), the flow is exactly login, target, evict+login,
target, and the second target response is returned unconditionally, even
if its status is again invalid. -/
theorem autoToken_retry_bound :
    (∀ (env : Env) (request : ApiCallRequest) (apiDoc : ApiDoc)
        (credential : Option Credential) (st : St),
      countKind ReqKind.target
        ((ApiClient.makeApiCall env request apiDoc credential st).2).reqs
        ≤ countKind ReqKind.target st.reqs + 2) ∧
    (∀ (env : Env) (storage : Storage) (params : RawParams) (st : St),
      countKind ReqKind.target
        ((ApiTools.callRawApi env storage params st).2).reqs
        ≤ countKind ReqKind.target st.reqs + 2) ∧
    (∀ (env : Env) (request : ApiCallRequest) (apiDoc : ApiDoc)
        (cred : Credential) (st : St) (url lu : String) (rL₁ r₁ rL₂ r₂ : Resp)
        (b₁ b₂ : JSValue) (tok₁ tok₂ : String),
      buildUrl apiDoc.baseUrl request.endpointPath request.pathParams
        request.queryParams = Except.ok url →
      cred.type = CredType.autoToken →
      cred.config.loginUrl = some lu →
      cacheGet st.cache cred.id = none →
      env st.reqs.length = FetchResult.success rL₁ →
      respOk rL₁ = true →
      rL₁.json = Except.ok b₁ →
      getValueByPath b₁ (orDefault cred.config.tokenPath "token")
        = some (JSValue.vstr tok₁) →
      tok₁ ≠ "" →
      env (st.reqs.length + 1) = FetchResult.success r₁ →
      ApiClient.retryGate cred r₁.status = true →
      env (st.reqs.length + 2) = FetchResult.success rL₂ →
      respOk rL₂ = true →
      rL₂.json = Except.ok b₂ →
      getValueByPath b₂ (orDefault cred.config.tokenPath "token")
        = some (JSValue.vstr tok₂) →
      tok₂ ≠ "" →
      env (st.reqs.length + 3) = FetchResult.success r₂ →
      (ApiClient.makeApiCall env request apiDoc (some cred) st).1 =
        Except.ok
          { status := r₂.status, statusText := r₂.statusText,
            headers := r₂.headers, body := parseRespBody r₂,
            timing :=
              { start := st.reqs.length + 3,
                stop := st.reqs.length + 4, duration := 1 } } ∧
      ((ApiClient.makeApiCall env request apiDoc (some cred) st).2).reqs.map
          (fun q => q.kind) =
        st.reqs.map (fun q => q.kind)
          ++ [ReqKind.login, ReqKind.target, ReqKind.login, ReqKind.target]) ∧
    (∀ (env : Env) (storage : Storage) (params : RawParams) (st : St)
        (cid lu : String) (cred : Credential) (rL₁ r₁ rL₂ r₂ : Resp)
        (b₁ b₂ : JSValue) (tok₁ tok₂ : String),
      (validateUrlAgainstWhitelist params.url
        storage.getWhitelistedBaseUrls).valid = true →
      params.credentialId = some cid →
      storage.getCredential cid = some cred →
      cred.type = CredType.autoToken →
      cred.config.loginUrl = some lu →
      cacheGet st.cache cred.id = none →
      env st.reqs.length = FetchResult.success rL₁ →
      respOk rL₁ = true →
      rL₁.json = Except.ok b₁ →
      getValueByPathTools b₁ (orDefault cred.config.tokenPath "token")
        = some (JSValue.vstr tok₁) →
      tok₁ ≠ "" →
      env (st.reqs.length + 1) = FetchResult.success r₁ →
      ApiClient.retryGate cred r₁.status = true →
      env (st.reqs.length + 2) = FetchResult.success rL₂ →
      respOk rL₂ = true →
      rL₂.json = Except.ok b₂ →
      getValueByPathTools b₂ (orDefault cred.config.tokenPath "token")
        = some (JSValue.vstr tok₂) →
      tok₂ ≠ "" →
      env (st.reqs.length + 3) = FetchResult.success r₂ →
      (ApiTools.callRawApi env storage params st).1 =
        { success := true,
          response := some
            { status := r₂.status, statusText := r₂.statusText,
              headers := r₂.headers, body := parseRespBody r₂, duration := 1 } } ∧
      ((ApiTools.callRawApi env storage params st).2).reqs.map
          (fun q => q.kind) =
        st.reqs.map (fun q => q.kind)
          ++ [ReqKind.login, ReqKind.target, ReqKind.login, ReqKind.target]) := by
  refine ⟨makeApiCall_target_bound, callRawApi_target_bound, ?_, ?_⟩
  · intro env request apiDoc cred st url lu rL₁ r₁ rL₂ r₂ b₁ b₂ tok₁ tok₂
      hurl htype hlu hmiss henv₀ hok₀ hjson₀ htok₀ hne₀ henv₁ hgate henv₂
      hok₂ hjson₂ htok₂ hne₂ henv₃
    unfold ApiClient.makeApiCall ApiClient.applyCredentials
      ApiClient.getAutoToken ApiClient.performLogin
      ApiClient.checkTokenValidity ApiClient.executeRequest
    simp only [hurl, htype, hmiss, hlu, issue, henv₀, hok₀, hjson₀, htok₀,
      List.length_append, List.length_cons, List.length_nil,
      Bool.true_eq_false, if_false]
    rw [if_neg hne₀]
    simp only [List.length_append, List.length_cons, List.length_nil,
      List.append_assoc, List.cons_append, List.nil_append, henv₁]
    simp only [hgate, if_true]
    simp only [cacheGet_cacheDelete, hlu, issue, List.length_append,
      List.length_cons, List.length_nil, List.append_assoc,
      List.cons_append, List.nil_append, henv₂, hok₂,
      Bool.true_eq_false, if_false, hjson₂, htok₂]
    rw [if_neg hne₂]
    simp only [List.length_append, List.length_cons, List.length_nil,
      List.append_assoc, List.cons_append, List.nil_append, henv₃]
    simp [Nat.add_sub_add_left, loginRequest, targetRequest]
  · intro env storage params st cid lu cred rL₁ r₁ rL₂ r₂ b₁ b₂ tok₁ tok₂
      hvalid hcid hcred htype hlu hmiss henv₀ hok₀ hjson₀ htok₀ hne₀ henv₁
      hgate henv₂ hok₂ hjson₂ htok₂ hne₂ henv₃
    unfold ApiTools.callRawApi ApiTools.callRawApiInner ApiTools.callRawApiSend
      ApiTools.applyCredentialsToHeaders ApiTools.performAutoTokenLogin
      ApiTools.executeRawRequest ApiClient.getCachedToken
    simp only [hvalid, hcid, hcred, htype, hmiss, hlu, issue, henv₀, hok₀,
      hjson₀, htok₀, List.length_append, List.length_cons, List.length_nil,
      Bool.true_eq_false, if_false, Option.map_none']
    rw [if_neg hne₀]
    simp only [List.length_append, List.length_cons, List.length_nil,
      List.append_assoc, List.cons_append, List.nil_append, henv₁]
    simp only [hgate, if_true]
    simp only [cacheGet_cacheDelete, hlu, issue, List.length_append,
      List.length_cons, List.length_nil, List.append_assoc,
      List.cons_append, List.nil_append, henv₂, hok₂,
      Bool.true_eq_false, if_false, hjson₂, htok₂, Option.map_none']
    rw [if_neg hne₂]
    simp only [List.length_append, List.length_cons, List.length_nil,
      List.append_assoc, List.cons_append, List.nil_append, henv₃]
    simp [Nat.add_sub_add_left, loginRequest, targetRequest]

/-- C1 witness: a concrete empty-cache `autoToken` run against an
environment answering login 200, target 401, login 200, target 200 —
both call layers issue exactly login, target, login, target and return
the second target response. -/
theorem autoToken_retry_bound_witness :
    ((ApiClient.makeApiCall
        (fun n => if n = 0 then FetchResult.success
            { status := 200,
              json := Except.ok (JSValue.vobj [("token", JSValue.vstr "t1")]) }
          else if n = 1 then FetchResult.success { status := 401 }
          else if n = 2 then FetchResult.success
            { status := 200,
              json := Except.ok (JSValue.vobj [("token", JSValue.vstr "t2")]) }
          else FetchResult.success { status := 200 })
        { endpointPath := "/x", method := "get" }
        { id := "d1", baseUrl := "https://api.example.com" }
        (some { id := "c1", name := "n", type := CredType.autoToken,
                config := { loginUrl := some "https://auth.example.com/login",
                            invalidStatusCodes := some [401] } })
        { }).1 =
      Except.ok
        { status := 200, statusText := "", headers := [],
          body := parseRespBody { status := 200 },
          timing := { start := 3, stop := 4, duration := 1 } } ∧
     ((ApiClient.makeApiCall
        (fun n => if n = 0 then FetchResult.success
            { status := 200,
              json := Except.ok (JSValue.vobj [("token", JSValue.vstr "t1")]) }
          else if n = 1 then FetchResult.success { status := 401 }
          else if n = 2 then FetchResult.success
            { status := 200,
              json := Except.ok (JSValue.vobj [("token", JSValue.vstr "t2")]) }
          else FetchResult.success { status := 200 })
        { endpointPath := "/x", method := "get" }
        { id := "d1", baseUrl := "https://api.example.com" }
        (some { id := "c1", name := "n", type := CredType.autoToken,
                config := { loginUrl := some "https://auth.example.com/login",
                            invalidStatusCodes := some [401] } })
        { }).2).reqs.map (fun q => q.kind) =
       [ReqKind.login, ReqKind.target, ReqKind.login, ReqKind.target]) ∧
    ((ApiTools.callRawApi
        (fun n => if n = 0 then FetchResult.success
            { status := 200,
              json := Except.ok (JSValue.vobj [("token", JSValue.vstr "t1")]) }
          else if n = 1 then FetchResult.success { status := 401 }
          else if n = 2 then FetchResult.success
            { status := 200,
              json := Except.ok (JSValue.vobj [("token", JSValue.vstr "t2")]) }
          else FetchResult.success { status := 200 })
        { apiDocs := [{ id := "d1", baseUrl := "https://api.example.com" }],
          credentials :=
            [{ id := "c1", name := "n", type := CredType.autoToken,
               config := { loginUrl := some "https://auth.example.com/login",
                           invalidStatusCodes := some [401] } }] }
        { url := "https://api.example.com/x", method := "GET",
          credentialId := some "c1" }
        { }).1 =
      { success := true,
        response := some
          { status := 200, statusText := "", headers := [],
            body := parseRespBody { status := 200 }, duration := 1 } } ∧
     ((ApiTools.callRawApi
        (fun n => if n = 0 then FetchResult.success
            { status := 200,
              json := Except.ok (JSValue.vobj [("token", JSValue.vstr "t1")]) }
          else if n = 1 then FetchResult.success { status := 401 }
          else if n = 2 then FetchResult.success
            { status := 200,
              json := Except.ok (JSValue.vobj [("token", JSValue.vstr "t2")]) }
          else FetchResult.success { status := 200 })
        { apiDocs := [{ id := "d1", baseUrl := "https://api.example.com" }],
          credentials :=
            [{ id := "c1", name := "n", type := CredType.autoToken,
               config := { loginUrl := some "https://auth.example.com/login",
                           invalidStatusCodes := some [401] } }] }
        { url := "https://api.example.com/x", method := "GET",
          credentialId := some "c1" }
        { }).2).reqs.map (fun q => q.kind) =
       [ReqKind.login, ReqKind.target, ReqKind.login, ReqKind.target]) := by
  refine ⟨autoToken_retry_bound.2.2.1
      (fun n => if n = 0 then FetchResult.success
          { status := 200,
            json := Except.ok (JSValue.vobj [("token", JSValue.vstr "t1")]) }
        else if n = 1 then FetchResult.success { status := 401 }
        else if n = 2 then FetchResult.success
          { status := 200,
            json := Except.ok (JSValue.vobj [("token", JSValue.vstr "t2")]) }
        else FetchResult.success { status := 200 })
      { endpointPath := "/x", method := "get" }
      { id := "d1", baseUrl := "https://api.example.com" }
      { id := "c1", name := "n", type := CredType.autoToken,
        config := { loginUrl := some "https://auth.example.com/login",
                    invalidStatusCodes := some [401] } }
      { } "https://api.example.com/x" "https://auth.example.com/login"
      { status := 200,
        json := Except.ok (JSValue.vobj [("token", JSValue.vstr "t1")]) }
      { status := 401 }
      { status := 200,
        json := Except.ok (JSValue.vobj [("token", JSValue.vstr "t2")]) }
      { status := 200 }
      (JSValue.vobj [("token", JSValue.vstr "t1")])
      (JSValue.vobj [("token", JSValue.vstr "t2")])
      "t1" "t2"
      rfl rfl rfl rfl rfl rfl rfl rfl (by decide) rfl rfl rfl rfl rfl rfl
      (by decide) rfl,
    autoToken_retry_bound.2.2.2
      (fun n => if n = 0 then FetchResult.success
          { status := 200,
            json := Except.ok (JSValue.vobj [("token", JSValue.vstr "t1")]) }
        else if n = 1 then FetchResult.success { status := 401 }
        else if n = 2 then FetchResult.success
          { status := 200,
            json := Except.ok (JSValue.vobj [("token", JSValue.vstr "t2")]) }
        else FetchResult.success { status := 200 })
      { apiDocs := [{ id := "d1", baseUrl := "https://api.example.com" }],
        credentials :=
          [{ id := "c1", name := "n", type := CredType.autoToken,
             config := { loginUrl := some "https://auth.example.com/login",
                         invalidStatusCodes := some [401] } }] }
      { url := "https://api.example.com/x", method := "GET",
        credentialId := some "c1" }
      { } "c1" "https://auth.example.com/login"
      { id := "c1", name := "n", type := CredType.autoToken,
        config := { loginUrl := some "https://auth.example.com/login",
                    invalidStatusCodes := some [401] } }
      { status := 200,
        json := Except.ok (JSValue.vobj [("token", JSValue.vstr "t1")]) }
      { status := 401 }
      { status := 200,
        json := Except.ok (JSValue.vobj [("token", JSValue.vstr "t2")]) }
      { status := 200 }
      (JSValue.vobj [("token", JSValue.vstr "t1")])
      (JSValue.vobj [("token", JSValue.vstr "t2")])
      "t1" "t2"
      rfl rfl rfl rfl rfl rfl rfl rfl rfl rfl (by decide) rfl rfl rfl rfl rfl
      rfl (by decide) rfl⟩
